import Mathlib

/-!
Verification development for the smart-laundry POS conversational backend
(`ai-agent`): a shallow embedding, in Lean 4, of the intent-classification,
store-resolution, UUID-normalization and report-handler logic of
`src/agents/analytics_agent_v2.py`, `src/agents/customer_service_agent_v2.py`
and `src/tools/analytics_tools.py`, together with theorems settling the
specified behavioural properties.

Python strings are modelled as Lean `String` (lists of characters); Python
`None`-able values as `Option`; values that may be `str`/`bytes`/`list` as an
explicit sum type; raised exceptions as `Except String`; floats as `ℚ`.
-/

namespace SmartLaundry

/-! ## Basic Python string primitives -/

/-- Python `str.lower` restricted to the ASCII case mapping (all source
keywords and store names are ASCII). -/
def lowerStr (s : String) : String := String.mk (s.toList.map Char.toLower)

/-- `listStarts pat s` is true when `pat` is an initial segment of `s`. -/
def listStarts : List Char → List Char → Bool
  | [], _ => true
  | _ :: _, [] => false
  | p :: ps, c :: cs => p == c && listStarts ps cs

/-- `hasSub pat hay` decides Python's substring test `pat in hay`. -/
def hasSub (pat : List Char) : List Char → Bool
  | [] => listStarts pat []
  | c :: rest => listStarts pat (c :: rest) || hasSub pat rest

/-- Python `needle in hay` on strings. -/
def strContains (hay pat : String) : Bool := hasSub pat.toList hay.toList

/-- Splitter for Python `str.split()`: cut at every whitespace character
(empty pieces are dropped by `pyWords`). -/
def splitWsGo (cur : List Char) : List Char → List (List Char)
  | [] => [cur.reverse]
  | c :: cs =>
    if c.isWhitespace then cur.reverse :: splitWsGo [] cs
    else splitWsGo (c :: cur) cs

/-- Python whitespace split `str.split()`: split on whitespace runs, dropping
empty pieces. -/
def pyWords (s : String) : List String :=
  ((splitWsGo [] s.toList).map String.mk).filter (fun w => w ≠ "")

/-- Python `str.title()` (ASCII): the first letter of every maximal alphabetic
run is uppercased, the rest are lowercased. -/
def pyTitleGo : Bool → List Char → List Char
  | _, [] => []
  | prevAlpha, c :: cs =>
    if c.isAlpha then
      (if prevAlpha then c.toLower else c.toUpper) :: pyTitleGo true cs
    else
      c :: pyTitleGo false cs

/-- Python `str.title()`. -/
def pyTitle (s : String) : String := String.mk (pyTitleGo false s.toList)

/-! ## Intent classifier, keyword stage
(`AnalyticsAgent._classify_intent_with_keywords` and the `_is_*_query`
predicates of `analytics_agent_v2.py`). -/

/-- The classification record produced per request:
`{"intent", "store_name", "phone_number", "period"}`. -/
structure Classification where
  intent : String
  store_name : Option String
  phone_number : Option String
  period : Option String
deriving DecidableEq, Repr

/-- `re` match attempt for `(08\d{8,12})` anchored at the head of the list:
after "08" the greedy `\d{8,12}` takes at most 12 digits of the following
digit run and needs at least 8. -/
def matchPhone812At : List Char → Option (List Char)
  | '0' :: '8' :: rest =>
    let ds := (rest.takeWhile Char.isDigit).take 12
    if 8 ≤ ds.length then some ('0' :: '8' :: ds) else none
  | _ => none

/-- `re.search(r'(08\d{8,12})', q)`: leftmost match. -/
def searchPhone812 : List Char → Option (List Char)
  | [] => none
  | c :: rest =>
    match matchPhone812At (c :: rest) with
    | some m => some m
    | none => searchPhone812 rest

/-- The phone extraction performed at the start of the keyword stage. -/
def keywordPhone (q : String) : Option String :=
  (searchPhone812 q.toList).map (fun l => String.mk l)

def daily_revenue_keywords : List String :=
  ["hari ini", "harian", "today", "daily", "kemarin", "kemaren", "yesterday"]

def weekly_keywords : List String :=
  ["minggu", "mingguan", "weekly", "week", "seminggu"]

def monthly_keywords : List String :=
  ["bulan", "bulanan", "monthly", "month"]

def comparison_keywords : List String :=
  ["banding", "compare", "vs", "dibanding", "perbandingan"]

def popular_services_keywords : List String :=
  ["populer", "terlaris", "top", "favorit", "popular", "best"]

def peak_hours_keywords : List String :=
  ["jam sibuk", "peak", "tersibuk", "ramai", "busy"]

def churned_customers_keywords : List String :=
  ["churn", "hilang", "sekali order", "tidak kembali"]

def inactive_customers_keywords : List String :=
  ["tidak aktif", "inactive", "lama tidak", "dormant"]

def store_list_keywords : List String :=
  ["daftar toko", "list store", "toko apa", "store apa", "cabang",
   "semua toko", "all stores", "toko tersedia", "available stores",
   "lihat toko", "tampilkan toko", "show stores", "toko mana",
   "outlet", "lokasi toko", "store locations"]

def store_detail_keywords : List String :=
  ["info toko", "detail toko", "store info", "tentang toko", "alamat toko"]

def points_keywords : List String :=
  ["poin", "loyalti", "loyalty", "reward", "point", "points", "hadiah", "bonus"]

def points_info_keywords : List String :=
  ["informasi poin", "info poin", "tentang poin", "apa itu poin",
   "penjelasan poin", "sistem poin", "points info", "about points"]

def points_redeem_keywords : List String :=
  ["tukar poin", "tuker poin", "redeem", "pakai poin", "gunakan poin",
   "cara tukar", "cara pakai poin", "cara gunakan poin", "menukar poin",
   "gimana tukar", "gimana cara tukar", "bagaimana tukar"]

def points_earn_keywords : List String :=
  ["cara dapat poin", "cara mendapat poin", "cara kumpul poin",
   "gimana dapat poin", "bagaimana dapat poin", "earn points",
   "dapet poin", "dapat poin", "kumpulkan poin"]

def points_summary_keywords : List String :=
  ["ringkasan poin", "total poin", "statistik poin", "points summary", "semua poin"]

def is_daily_revenue_query (q : String) : Bool :=
  daily_revenue_keywords.any (fun kw => strContains q kw)

def is_weekly_query (q : String) : Bool :=
  weekly_keywords.any (fun kw => strContains q kw)

def is_monthly_query (q : String) : Bool :=
  monthly_keywords.any (fun kw => strContains q kw)

def is_comparison_query (q : String) : Bool :=
  comparison_keywords.any (fun kw => strContains q kw)

def is_popular_services_query (q : String) : Bool :=
  popular_services_keywords.any (fun kw => strContains q kw)

def is_peak_hours_query (q : String) : Bool :=
  peak_hours_keywords.any (fun kw => strContains q kw)

def is_churned_customers_query (q : String) : Bool :=
  churned_customers_keywords.any (fun kw => strContains q kw)

def is_inactive_customers_query (q : String) : Bool :=
  inactive_customers_keywords.any (fun kw => strContains q kw)

def is_store_list_query (q : String) : Bool :=
  store_list_keywords.any (fun kw => strContains q kw)

def is_store_detail_query (q : String) : Bool :=
  store_detail_keywords.any (fun kw => strContains q kw)

def is_points_query (q : String) : Bool :=
  points_keywords.any (fun kw => strContains q kw)

def is_points_info_query (q : String) : Bool :=
  points_info_keywords.any (fun kw => strContains q kw)

def is_points_redeem_query (q : String) : Bool :=
  points_redeem_keywords.any (fun kw => strContains q kw)

def is_points_earn_query (q : String) : Bool :=
  points_earn_keywords.any (fun kw => strContains q kw)

def is_points_summary_query (q : String) : Bool :=
  points_summary_keywords.any (fun kw => strContains q kw)

/-- `AnalyticsAgent._extract_period`. -/
def extract_period (q : String) : String :=
  if strContains q "bulan" || strContains q "month" then "month" else "week"

/-- `AnalyticsAgent._classify_intent_with_keywords`: the phone slot is filled
first, then the category predicates are tested in the source's `if/elif`
order, the first true one fixing the intent; the `period` slot is only filled
on the comparison branch. -/
def classify_intent_with_keywords (query_lower : String) : Classification :=
  let phone := keywordPhone query_lower
  if is_comparison_query query_lower then
    { intent := "compare_periods", store_name := none, phone_number := phone,
      period := some (extract_period query_lower) }
  else if is_store_list_query query_lower then
    { intent := "store_list", store_name := none, phone_number := phone, period := none }
  else if is_store_detail_query query_lower then
    { intent := "store_detail", store_name := none, phone_number := phone, period := none }
  else if is_daily_revenue_query query_lower then
    { intent := "daily_revenue", store_name := none, phone_number := phone, period := none }
  else if is_weekly_query query_lower then
    { intent := "weekly_revenue", store_name := none, phone_number := phone, period := none }
  else if is_monthly_query query_lower then
    { intent := "monthly_revenue", store_name := none, phone_number := phone, period := none }
  else if is_popular_services_query query_lower then
    { intent := "popular_services", store_name := none, phone_number := phone, period := none }
  else if is_peak_hours_query query_lower then
    { intent := "peak_hours", store_name := none, phone_number := phone, period := none }
  else if is_churned_customers_query query_lower then
    { intent := "churned_customers", store_name := none, phone_number := phone, period := none }
  else if is_inactive_customers_query query_lower then
    { intent := "inactive_customers", store_name := none, phone_number := phone, period := none }
  else if is_points_summary_query query_lower then
    { intent := "points_summary", store_name := none, phone_number := phone, period := none }
  else if is_points_redeem_query query_lower then
    { intent := "points_redeem", store_name := none, phone_number := phone, period := none }
  else if is_points_earn_query query_lower then
    { intent := "points_earn", store_name := none, phone_number := phone, period := none }
  else if is_points_info_query query_lower then
    { intent := "points_info", store_name := none, phone_number := phone, period := none }
  else if is_points_query query_lower then
    { intent := "points_check", store_name := none, phone_number := phone, period := none }
  else
    { intent := "general", store_name := none, phone_number := phone, period := none }

/-- Specification-side view of the keyword stage: the fixed priority list of
(category predicate, intent) pairs in the order the spec states them. -/
def intent_priority : List ((String → Bool) × String) :=
  [(is_comparison_query, "compare_periods"),
   (is_store_list_query, "store_list"),
   (is_store_detail_query, "store_detail"),
   (is_daily_revenue_query, "daily_revenue"),
   (is_weekly_query, "weekly_revenue"),
   (is_monthly_query, "monthly_revenue"),
   (is_popular_services_query, "popular_services"),
   (is_peak_hours_query, "peak_hours"),
   (is_churned_customers_query, "churned_customers"),
   (is_inactive_customers_query, "inactive_customers"),
   (is_points_summary_query, "points_summary"),
   (is_points_redeem_query, "points_redeem"),
   (is_points_earn_query, "points_earn"),
   (is_points_info_query, "points_info"),
   (is_points_query, "points_check")]

/-- First-true-predicate-wins resolution over a priority list; `"general"`
when none holds. -/
def first_true_intent : List ((String → Bool) × String) → String → String
  | [], _ => "general"
  | (p, name) :: rest, q => if p q then name else first_true_intent rest q

/-! ## Intent classifier, LLM fallback stage
(`AnalyticsAgent._classify_intent_with_llm` and the fallback combination in
`AnalyticsAgent.process_query`). -/

/-- Outcome of one LLM round trip as seen by `_classify_intent_with_llm`:
either there is no configured client, or the call (or the handling of its
reply) raised, or the reply's JSON failed to parse as an object, or it parsed
into an object whose four relevant keys are each present or absent. -/
inductive LLMOutcome where
  | noClient
  | exn
  | parseFail
  | parsed (intent : Option String) (store_name : Option String)
      (phone_number : Option String) (period : Option String)
deriving DecidableEq, Repr

/-- The all-`"general"` default classification returned on every degraded
path of the LLM stage. -/
def general_default : Classification :=
  { intent := "general", store_name := none, phone_number := none, period := none }

/-- `AnalyticsAgent._classify_intent_with_llm`: a missing client, a JSON
parse failure and any exception all degrade to the `"general"` default; a
parsed object is read with `result.get("intent", "general")` and the three
optional slots. -/
def classify_intent_with_llm : LLMOutcome → Classification
  | .noClient => general_default
  | .exn => general_default
  | .parseFail => general_default
  | .parsed i s p per =>
    { intent := i.getD "general", store_name := s, phone_number := p, period := per }

/-- The classification portion of `AnalyticsAgent.process_query`: keyword
stage first; the LLM fallback is consulted only when the keyword intent is
`"general"` and the fallback is enabled, and its result replaces the keyword
result only when its own intent is not `"general"`. -/
def classify_query (query_lower : String) (use_llm_fallback : Bool)
    (llm : LLMOutcome) : Classification :=
  let c := classify_intent_with_keywords query_lower
  if c.intent = "general" ∧ use_llm_fallback then
    let l := classify_intent_with_llm llm
    if l.intent ≠ "general" then l else c
  else c

/-! ## Store match scoring (`AnalyticsAgent._calculate_store_match_score`). -/

/-- The fixed stop-set of common laundry words. -/
def common_words : List String := ["laundry", "toko", "ruang", "outlet", "cabang", "store"]

/-- `AnalyticsAgent._calculate_store_match_score`: whitespace-split the store
name into words of length > 1; each word found as a substring of the query
adds 1 point, plus 2 more if it is not a common word; a verbatim occurrence
of the full store name adds a flat 5. -/
def calculate_store_match_score (store_name query : String) : Nat :=
  let store_words := (pyWords store_name).filter (fun w => w.length > 1)
  let unique_words := store_words.filter (fun w => !(common_words.contains w))
  let score := store_words.foldl
    (fun acc word =>
      if strContains query word then
        acc + 1 + (if unique_words.contains word then 2 else 0)
      else acc) 0
  if strContains query store_name then score + 5 else score

/-- Specification-side restatement of the match score, written from the
spec's words ("1 point per store-name word found as a substring of the query,
plus 2 extra points when that word is not in the stop-set, plus a flat 5
points when the full store name appears verbatim"), used to check the code
against the spec's formula. -/
def spec_match_score (store_name query : String) : Nat :=
  let store_words := (pyWords store_name).filter (fun w => w.length > 1)
  (store_words.map (fun w =>
      if strContains query w then
        1 + (if common_words.contains w then 0 else 2)
      else 0)).sum
  + (if strContains query store_name then 5 else 0)

/-! ## UUID normalization (`AnalyticsAgent._format_uuid`). -/

/-- The value shapes `_format_uuid` distinguishes with `isinstance`: an
already-string value, a byte sequence (`bytes`/`bytearray`/`memoryview`,
which behave identically), a list/tuple of integer byte values, or `None`. -/
inductive PyValue where
  | none
  | str (s : String)
  | bytes (b : List Nat)
  | ints (l : List Nat)
deriving DecidableEq, Repr

/-- Python truthiness for the shapes above (`if not uuid_value`). -/
def pyFalsy : PyValue → Bool
  | .none => true
  | .str s => s = ""
  | .bytes b => b = []
  | .ints l => l = []

/-- Lowercase hex digit for a value below 16. -/
def hexDigit (n : Nat) : Char :=
  if n = 0 then '0' else if n = 1 then '1' else if n = 2 then '2'
  else if n = 3 then '3' else if n = 4 then '4' else if n = 5 then '5'
  else if n = 6 then '6' else if n = 7 then '7' else if n = 8 then '8'
  else if n = 9 then '9' else if n = 10 then 'a' else if n = 11 then 'b'
  else if n = 12 then 'c' else if n = 13 then 'd' else if n = 14 then 'e'
  else 'f'

/-- Lowercase hex digits, most significant first, with explicit fuel (the
fuel `n` always suffices for the value `n`, since dividing by 16 shrinks a
positive number); `[]` for `0`. -/
def hexDigitsGo : Nat → Nat → List Char
  | 0, _ => []
  | _, 0 => []
  | fuel + 1, n => hexDigitsGo fuel (n / 16) ++ [hexDigit (n % 16)]

/-- Lowercase hex digits of `n` (no padding), most significant first;
`[]` for `0`. -/
def hexDigits (n : Nat) : List Char := hexDigitsGo n n

/-- Python `f'{b:02x}'`: lowercase hex, zero-padded to at least two digits.
For byte values (< 256) this is exactly two digits; `bytes.hex()` is the
concatenation of these over the bytes. -/
def hex02 (n : Nat) : List Char :=
  let ds := hexDigits n
  if ds.length = 0 then ['0', '0']
  else if ds.length = 1 then '0' :: ds
  else ds

/-- `''.join(f'{b:02x}' for b in value)` / `value.hex()`. -/
def bytesHex (b : List Nat) : List Char := (b.map hex02).flatten

/-- The dash-insertion slicing `f"{h[:8]}-{h[8:12]}-{h[12:16]}-{h[16:20]}-{h[20:]}"`
(Python slices clamp at the end of the string, as `take`/`drop` do). -/
def dashify (h : List Char) : List Char :=
  h.take 8 ++ '-' :: ((h.drop 8).take 4) ++ '-' :: ((h.drop 12).take 4)
    ++ '-' :: ((h.drop 16).take 4) ++ '-' :: h.drop 20

/-- Python `str(...)` repr of a list of integers, the best-effort fallback of
`_format_uuid` for an integer sequence whose length is not 16. -/
def pyReprInts (l : List Nat) : String :=
  "[" ++ String.intercalate ", " (l.map (fun n => toString n)) ++ "]"

/-- `AnalyticsAgent._format_uuid`, branch for branch: falsy values give "";
a 36-character string containing exactly four dashes is returned unchanged; a
32-character string gets dashes inserted; any other string is returned
unchanged; byte sequences (any length) and integer sequences of length 16 are
hex-encoded and dashed; other integer sequences fall back to `str(...)`. -/
def format_uuid (v : PyValue) : String :=
  if pyFalsy v then "" else
  match v with
  | .none => ""
  | .str s =>
    if s.length = 36 ∧ s.toList.count '-' = 4 then s
    else if s.length = 32 then String.mk (dashify s.toList)
    else s
  | .bytes b => String.mk (dashify (bytesHex b))
  | .ints l =>
    if l.length = 16 then String.mk (dashify (bytesHex l))
    else pyReprInts l

/-- A character is a lowercase hex digit. -/
def isLowerHex (c : Char) : Bool :=
  ('0' ≤ c && c ≤ '9') || ('a' ≤ c && c ≤ 'f')

/-- A character is a hex digit of either case. -/
def isAnyHex (c : Char) : Bool :=
  ('0' ≤ c && c ≤ '9') || ('a' ≤ c && c ≤ 'f') || ('A' ≤ c && c ≤ 'F')

/-- Canonical dashed lowercase UUID form: five lowercase-hex groups of sizes
8-4-4-4-12 joined by dashes. -/
def isCanonicalUuid (s : String) : Prop :=
  ∃ a b c d e : List Char,
    s.toList = a ++ '-' :: b ++ '-' :: c ++ '-' :: d ++ '-' :: e ∧
    a.length = 8 ∧ b.length = 4 ∧ c.length = 4 ∧ d.length = 4 ∧ e.length = 12 ∧
    a.all isLowerHex ∧ b.all isLowerHex ∧ c.all isLowerHex ∧
    d.all isLowerHex ∧ e.all isLowerHex

/-- Dashed 36-character UUID form with hex digits of either case. -/
def isDashedUuid (s : String) : Prop :=
  ∃ a b c d e : List Char,
    s.toList = a ++ '-' :: b ++ '-' :: c ++ '-' :: d ++ '-' :: e ∧
    a.length = 8 ∧ b.length = 4 ∧ c.length = 4 ∧ d.length = 4 ∧ e.length = 12 ∧
    a.all isAnyHex ∧ b.all isAnyHex ∧ c.all isAnyHex ∧
    d.all isAnyHex ∧ e.all isAnyHex

/-- The input encodings `normalize_uuid` is specified to accept: a dashed
36-character UUID string, a 32-character undashed hex string, a 16-byte
sequence, a sequence of 16 integer byte values, or a falsy value. -/
def acceptedEncoding : PyValue → Prop
  | .none => True
  | .str s => s = "" ∨ isDashedUuid s ∨ (s.length = 32 ∧ s.toList.all isAnyHex)
  | .bytes b => b = [] ∨ (b.length = 16 ∧ ∀ x ∈ b, x < 256)
  | .ints l => l = [] ∨ (l.length = 16 ∧ ∀ x ∈ l, x < 256)

/-! ## Phone extraction (`CustomerServiceAgent._extract_phone`).

The two source patterns are `(?:\+62|62|0)8[1-9][0-9]{7,10}` and
`\b08[0-9]{8,11}\b`, tried in that order with `re.search` (leftmost match);
each is embedded as a dedicated matcher following `re` semantics. -/

/-- A digit `1`-`9`. -/
def isDigit19 (c : Char) : Bool := '1' ≤ c && c ≤ '9'

/-- Python `\w` on the inputs at hand (ASCII): letters, digits, underscore. -/
def isWordChar (c : Char) : Bool := c.isAlphanum || c = '_'

/-- Match `8[1-9][0-9]{7,10}` at the head of the list (the part after the
`(?:\+62|62|0)` alternation); nothing follows the greedy counted class in the
pattern, so it simply takes at most 10 of the following digit run and needs
at least 7. -/
def matchP1Core : List Char → Option (List Char)
  | '8' :: c :: rest =>
    if isDigit19 c then
      let ds := (rest.takeWhile Char.isDigit).take 10
      if 7 ≤ ds.length then some ('8' :: c :: ds) else none
    else none
  | _ => none

/-- Match `(?:\+62|62|0)8[1-9][0-9]{7,10}` at the head of the list; the three
alternatives are tried in source order (their first characters are distinct,
so at most one applies). -/
def matchP1At (cs : List Char) : Option (List Char) :=
  match cs with
  | '+' :: '6' :: '2' :: rest => (matchP1Core rest).map (fun m => '+' :: '6' :: '2' :: m)
  | '6' :: '2' :: rest => (matchP1Core rest).map (fun m => '6' :: '2' :: m)
  | '0' :: rest => (matchP1Core rest).map (fun m => '0' :: m)
  | _ => none

/-- Match `\b08[0-9]{8,11}\b` at a position whose preceding character (if
any) is `prev`.  The leading `\b` needs `prev` absent or a non-word
character; the greedy counted class with the trailing `\b` succeeds exactly
when the whole digit run after "08" has length 8..11 (any shorter greedy
retry ends on a digit, a word character) and the character after the run is
absent or non-word.  `boundaryOk` is the `\b` test against an optional
neighbouring character. -/
def boundaryOk : Option Char → Bool
  | Option.none => true
  | some c => ¬ isWordChar c

def matchP2At (prev : Option Char) (cs : List Char) : Option (List Char) :=
  if boundaryOk prev then
    match cs with
    | '0' :: '8' :: rest =>
      let run := rest.takeWhile Char.isDigit
      if (decide (8 ≤ run.length) && decide (run.length ≤ 11)
          && boundaryOk (rest.drop run.length).head?) then
        some ('0' :: '8' :: run)
      else none
    | _ => none
  else none

/-- `re.search` scan for pattern 1: leftmost position wins. -/
def searchP1 : List Char → Option (List Char)
  | [] => none
  | c :: rest =>
    match matchP1At (c :: rest) with
    | some m => some m
    | Option.none => searchP1 rest

/-- `re.search` scan for pattern 2, threading the previous character for the
word-boundary test. -/
def searchP2Aux (prev : Option Char) : List Char → Option (List Char)
  | [] => none
  | c :: rest =>
    match matchP2At prev (c :: rest) with
    | some m => some m
    | Option.none => searchP2Aux (some c) rest

def searchP2 (cs : List Char) : Option (List Char) := searchP2Aux none cs

/-- `CustomerServiceAgent._extract_phone`: try the two patterns in order,
returning the first pattern's leftmost match if it matches anywhere, else the
second's, else `None`. -/
def extract_phone (message : String) : Option String :=
  match searchP1 message.toList with
  | some m => some (String.mk m)
  | Option.none =>
    match searchP2 message.toList with
    | some m => some (String.mk m)
    | Option.none => none

/-- The character preceding position `i` of `cs`, if any (the word-boundary
context of a match at position `i`). -/
def prevChar (cs : List Char) : Nat → Option Char
  | 0 => none
  | i + 1 => cs[i]?

/-- The shape the spec claims for every extracted phone string: "08" (or a
"+62"/"62" prefixed equivalent) followed by 8 to 12 digits. -/
def claimPhoneShape (l : List Char) : Prop :=
  ∃ p ds : List Char,
    l = p ++ ds ∧
    (p = ['0', '8'] ∨ p = ['6', '2', '8'] ∨ p = ['+', '6', '2', '8']) ∧
    ds.all Char.isDigit ∧ 8 ≤ ds.length ∧ ds.length ≤ 12

/-! ## Revenue period comparison (`AnalyticsTools.compare_revenue`,
`src/tools/analytics_tools.py`).

The data-store round trips (summing `total_amount` over paid, non-cancelled
orders in each window) are out of scope; the embedding takes the two period
sums and order counts and performs the growth computation.  Python floats are
modelled as `ℚ`; `round(x, 2)` is round-half-to-even at two decimals. -/

/-- Round-half-to-even to an integer. -/
def roundHalfEven (x : ℚ) : ℤ :=
  let f := ⌊x⌋
  let r := x - (f : ℚ)
  if r < 1/2 then f
  else if r > 1/2 then f + 1
  else if f % 2 = 0 then f else f + 1

/-- Python `round(x, 2)`. -/
def pyRound2 (x : ℚ) : ℚ := (roundHalfEven (x * 100) : ℚ) / 100

/-- The result fields of `AnalyticsTools.compare_revenue` relevant to the
growth computation (the per-period blocks carry the inputs through and the
formatted strings are presentation only). -/
structure CompareRevenueResult where
  rev1 : ℚ
  count1 : Nat
  rev2 : ℚ
  count2 : Nat
  growth_percentage : ℚ
  growth_direction : String
  revenue_difference : ℚ
deriving DecidableEq, Repr

/-- The growth computation of `AnalyticsTools.compare_revenue`, given the
two period revenues (`rev1` = period 1, the "previous" window; `rev2` =
period 2, the "current" window) and order counts: the raw percentage is
`(rev2 - rev1)/rev1 * 100` when `rev1 > 0`, else `100` when `rev2 > 0`, else
`0`; the direction comes from the sign of the raw percentage; the returned
`growth_percentage` field is the raw percentage rounded to two decimals. -/
def compare_revenue (rev1 : ℚ) (count1 : Nat) (rev2 : ℚ) (count2 : Nat) :
    CompareRevenueResult :=
  let growth : ℚ :=
    if rev1 > 0 then ((rev2 - rev1) / rev1) * 100
    else if rev2 > 0 then 100
    else 0
  let growth_direction :=
    if growth > 0 then "up" else if growth < 0 then "down" else "flat"
  { rev1 := rev1, count1 := count1, rev2 := rev2, count2 := count2,
    growth_percentage := pyRound2 growth,
    growth_direction := growth_direction,
    revenue_difference := rev2 - rev1 }

/-! ## Store cache and store resolution
(`AnalyticsAgent._load_store_cache`, `AnalyticsAgent.list_stores` cache
update, `AnalyticsAgent._get_store_name_by_id`). -/

/-- A store row as returned by the data store.  The raw `id` may arrive in
any of the encodings `_format_uuid` handles, hence `PyValue`. -/
structure StoreRec where
  id : PyValue
  name : String
  address : String
  phone : String
deriving DecidableEq, Repr

/-- The store-name cache `Dict[str, Dict]`, modelled as an insertion-ordered
association list (Python dict semantics: updating an existing key keeps its
position, new keys append). -/
def StoreCache := List (String × StoreRec)

/-- Python dict assignment `cache[k] = v`. -/
def dictInsert (k : String) (v : StoreRec) : List (String × StoreRec) → List (String × StoreRec)
  | [] => [(k, v)]
  | (k', v') :: rest =>
    if k' = k then (k, v) :: rest else (k', v') :: dictInsert k v rest

/-- `list(cache.keys())`. -/
def dictKeys (c : List (String × StoreRec)) : List String := c.map Prod.fst

/-- `AnalyticsAgent._load_store_cache` with an explicit fetch outcome and a
trace of data-store calls made: a non-empty cache is left untouched without
fetching; a failed fetch is caught (logged) leaving the cache as is; a
successful fetch indexes every store by lowercased name with its `id`
normalized through `_format_uuid`. -/
def load_store_cache (cache : List (String × StoreRec))
    (fetch : Except String (List StoreRec)) :
    List (String × StoreRec) × List String :=
  if cache = [] then
    match fetch with
    | .error _ => (cache, ["list-stores"])
    | .ok stores =>
      (stores.foldl
        (fun c s => dictInsert (lowerStr s.name) { s with id := .str (format_uuid s.id) } c)
        cache,
       ["list-stores"])
  else (cache, [])

/-- The cache update performed inside `AnalyticsAgent.list_stores`: every
fetched store is indexed by lowercased name, stored as returned (its `id` is
not normalized here). -/
def list_stores_cache_update (cache : List (String × StoreRec))
    (stores : List StoreRec) : List (String × StoreRec) :=
  stores.foldl (fun c s => dictInsert (lowerStr s.name) s c) cache

/-- The store-cache invariant the spec states: every cached record's `id` is
a string already in normalized form, i.e. re-applying `_format_uuid` leaves
it unchanged. -/
def cacheNormalized (cache : List (String × StoreRec)) : Prop :=
  ∀ p ∈ cache, ∃ s : String, p.2.id = PyValue.str s ∧ format_uuid (PyValue.str s) = s

/-- `AnalyticsAgent._get_store_name_by_id`: load the cache, scan it in order
for a record whose `id` equals the given string, returning its name; fall
back to the first eight characters of the id (or "Unknown" when empty). -/
def get_store_name_by_id (store_id : String) (cache : List (String × StoreRec))
    (fetch : Except String (List StoreRec)) : String × List String :=
  let lc := load_store_cache cache fetch
  match lc.1.find? (fun p => p.2.id == PyValue.str store_id) with
  | some p => (p.2.name, lc.2)
  | none => (if store_id ≠ "" then String.mk (store_id.toList.take 8) else "Unknown", lc.2)

/-! ## Rendering primitives (`Config.format_currency` and the f-string
formats used by the handlers).

`f"{x:,.0f}"`, `f"{n:,}"`, `f"{x:+.1f}"` and `f"{x:.0f}"` are modelled with
round-half-to-even on `ℚ`; the float negative-zero rendering ("-0") of
pathological negative amounts is not modelled (no claim touches it). -/

/-- Insert thousands separators into a digit string. -/
def commaGroup (ds : List Char) : List Char :=
  ((ds.reverse.toChunks 3).intersperse [',']).flatten.reverse

/-- Python `f"{n:,}"` for an integer. -/
def pyCommaInt (n : ℤ) : String :=
  (if n < 0 then "-" else "") ++ String.mk (commaGroup (toString n.natAbs).toList)

/-- Python `f"{x:,.0f}"`. -/
def pyComma0f (x : ℚ) : String := pyCommaInt (roundHalfEven x)

/-- `Config.format_currency` with the default "IDR" currency:
`f"Rp {amount:,.0f}"`. -/
def format_currency (amount : ℚ) : String := "Rp " ++ pyComma0f amount

/-- Python `f"{x:+.1f}"`: explicit sign, one decimal. -/
def pySigned1f (x : ℚ) : String :=
  let n := roundHalfEven (x * 10)
  (if x < 0 then "-" else "+") ++ toString (n.natAbs / 10) ++ "." ++ toString (n.natAbs % 10)

/-- Python `f"{x:.0f}"`. -/
def pyDot0f (x : ℚ) : String := toString (roundHalfEven x)

/-- `AnalyticsAgent._get_status_label`. -/
def get_status_label (status : String) : String :=
  if status = "pending" then "⏳ Menunggu"
  else if status = "processing" then "🔄 Diproses"
  else if status = "washing" then "🧼 Dicuci"
  else if status = "drying" then "💨 Dikeringkan"
  else if status = "folding" then "👕 Dilipat"
  else if status = "completed" then "✅ Selesai"
  else if status = "delivered" then "📦 Dikirim"
  else if status = "cancelled" then "❌ Dibatalkan"
  else status

/-! ## Report handlers
(`AnalyticsAgent.get_daily_report`, `get_weekly_report`, `get_monthly_report`,
`compare_periods`, `get_points_summary`, `get_customer_points`).

Each handler is a total function of the outcomes of its external calls:
`tools` is the outcome of `_ensure_tools_loaded` (which sits outside the
handler's `try` and is a no-op when the router already loaded the tools),
each data-store query is an `Except String` of its row shape, and the store
cache plus its fetch outcome stand in for `self._store_cache`.  The returned
value is the handler's response dictionary together with the ordered trace
of data-store calls actually performed; a `.error` result models an
exception escaping the handler. -/

/-- Row of `get-daily-revenue` / `get-weekly-revenue` / `get-monthly-revenue`
with each field as `dict.get` sees it. -/
structure RevenueRow where
  date : Option String
  total_orders : Option Int
  paid_revenue : Option ℚ
  unpaid_revenue : Option ℚ
  total_revenue : Option ℚ
  average_order_value : Option ℚ
deriving DecidableEq, Repr

/-- Row of `get-order-status-summary`. -/
structure StatusRow where
  execution_status : Option String
  payment_status : Option String
  count : Option Int
deriving DecidableEq, Repr

/-- Row of `get-popular-services`. -/
structure ServiceRow where
  service_name : Option String
  name : Option String
  order_count : Option Int
  total_quantity : Option Int
  total_revenue : Option ℚ
deriving DecidableEq, Repr

/-- Row of `compare-revenue-periods`. -/
structure ComparisonRow where
  current_revenue : Option ℚ
  previous_revenue : Option ℚ
  current_orders : Option Int
  previous_orders : Option Int
  revenue_change_percent : Option ℚ
deriving DecidableEq, Repr

/-- Row of `get-customer-points` (after the toolbox wrapper's
`result[0] if result else None`). -/
structure CustomerRow where
  name : Option String
  points : Option Int
  lifetime_points : Option Int
deriving DecidableEq, Repr

/-- Row of `get-points-summary-by-store` (after the handler's
`result[0] if isinstance(result, list) else result`). -/
structure PointsSummaryRow where
  total_customers_with_points : Option Int
  total_available_points : Option Int
  total_lifetime_points_issued : Option Int
  avg_points_per_customer : Option ℚ
deriving DecidableEq, Repr

/-- The `data` payload of a handler response; `pynone` is an explicit
`"data": None`. -/
inductive DataPayload where
  | pynone
  | emptyList
  | requiresStore
  | daily (revenue : RevenueRow) (status_summary : List StatusRow)
  | weekly (revenue : RevenueRow)
  | monthly (revenue : RevenueRow) (popular : List ServiceRow)
  | comparison (c : ComparisonRow)
  | customer (c : CustomerRow)
  | pointsSummary (s : PointsSummaryRow)
deriving DecidableEq, Repr

/-- A handler's response dictionary: `data = none` models the error dicts,
which carry no `data` key at all. -/
structure HandlerResult where
  success : Bool
  response : String
  data : Option DataPayload
  error : Option String
deriving DecidableEq, Repr

/-- The `{success: False, response: msg, "error": str(e)}` dictionary every
handler's `except` clause builds. -/
def errDict (msg e : String) : HandlerResult :=
  { success := false, response := msg, data := none, error := some e }

/-- A `{success: True, response: msg, data: d}` dictionary. -/
def okDict (msg : String) (d : DataPayload) : HandlerResult :=
  { success := true, response := msg, data := some d, error := none }

/-- `AnalyticsAgent._ask_for_store_context`: loads the store cache (catching
fetch failures inside the loader), then returns a `success: true`
clarification response listing the first five cached store names. -/
def ask_for_store_context (report_type : String)
    (cache : List (String × StoreRec)) (fetch : Except String (List StoreRec)) :
    HandlerResult × List String :=
  let lc := load_store_cache cache fetch
  let store_names := (dictKeys lc.1).take 5
  let r0 := "📊 *" ++ pyTitle report_type ++ "*\n\nMohon sebutkan nama toko untuk melihat "
    ++ report_type ++ ".\n\nContoh: `" ++ report_type ++ " toko [nama toko]`\n\n🏪 *Toko tersedia:*"
  let r1 := store_names.foldl (fun acc name => acc ++ "\n• " ++ pyTitle name) r0
  let r2 := if 5 < lc.1.length
    then r1 ++ "\n• ... dan " ++ toString (lc.1.length - 5) ++ " toko lainnya"
    else r1
  let r3 := r2 ++ "\n\n💡 Ketik `daftar toko` untuk melihat semua toko."
  ({ success := true, response := r3, data := some .requiresStore, error := none }, lc.2)

/-- `effective_store_id = store_id if store_id is not None else self._store_id`
(the form used by the daily/weekly/monthly/comparison handlers). -/
def effectiveSid (store_id : Option String) (dflt : String) : String :=
  store_id.getD dflt

/-- `AnalyticsAgent.get_daily_report`. -/
def get_daily_report (tools : Except String Unit) (dflt : String)
    (cache : List (String × StoreRec)) (fetch : Except String (List StoreRec))
    (store_id : Option String)
    (revenueRes : Except String (Option RevenueRow))
    (statusRes : Except String (List StatusRow)) :
    Except String (HandlerResult × List String) :=
  match tools with
  | .error e => .error e
  | .ok _ =>
    let eff := effectiveSid store_id dflt
    if eff = "" then .ok (ask_for_store_context "laporan harian" cache fetch)
    else
      match revenueRes with
      | .error e => .ok (errDict "Gagal mengambil laporan harian." e, ["get-daily-revenue"])
      | .ok revOpt =>
        match statusRes with
        | .error e => .ok (errDict "Gagal mengambil laporan harian." e, ["get-daily-revenue", "get-order-status-summary"])
        | .ok status_summary =>
          match revOpt with
          | none => .ok (okDict "Belum ada data transaksi untuk tanggal ini." .pynone, ["get-daily-revenue", "get-order-status-summary"])
          | some revenue =>
            let date_str := revenue.date.getD "Hari ini"
            let total_orders := revenue.total_orders.getD 0
            let paid := revenue.paid_revenue.getD 0
            let unpaid := revenue.unpaid_revenue.getD 0
            let total := revenue.total_revenue.getD 0
            let sn := if eff ≠ "" then get_store_name_by_id eff cache fetch
              else ("Semua Toko", [])
            let r0 := "📊 *Laporan Harian - " ++ sn.1 ++ "*\nTanggal: " ++ date_str
              ++ "\nTotal: " ++ format_currency total ++ " (" ++ toString total_orders
              ++ " order)\n• Lunas: " ++ format_currency paid
              ++ "\n• Belum: " ++ format_currency unpaid
            let r1 := if status_summary ≠ [] then
                status_summary.foldl
                  (fun acc st =>
                    acc ++ "\n• " ++ get_status_label (st.execution_status.getD "")
                      ++ " (" ++ st.payment_status.getD "" ++ "): "
                      ++ toString (st.count.getD 0))
                  (r0 ++ "\n\n📈 *Status Pesanan:*")
              else r0
            .ok (okDict r1 (.daily revenue status_summary), ["get-daily-revenue", "get-order-status-summary"] ++ sn.2)

/-- `AnalyticsAgent.get_weekly_report`. -/
def get_weekly_report (tools : Except String Unit) (dflt : String)
    (cache : List (String × StoreRec)) (fetch : Except String (List StoreRec))
    (store_id : Option String)
    (revenueRes : Except String (Option RevenueRow)) :
    Except String (HandlerResult × List String) :=
  match tools with
  | .error e => .error e
  | .ok _ =>
    let eff := effectiveSid store_id dflt
    if eff = "" then .ok (ask_for_store_context "laporan mingguan" cache fetch)
    else
      match revenueRes with
      | .error e => .ok (errDict "Gagal mengambil laporan mingguan." e, ["get-weekly-revenue"])
      | .ok revOpt =>
        match revOpt with
        | none => .ok (okDict "Belum ada data transaksi minggu ini." .pynone, ["get-weekly-revenue"])
        | some revenue =>
          let total_orders := revenue.total_orders.getD 0
          let paid := revenue.paid_revenue.getD 0
          let total := revenue.total_revenue.getD 0
          let avg := revenue.average_order_value.getD 0
          let sn := if eff ≠ "" then get_store_name_by_id eff cache fetch
            else ("Semua Toko", [])
          let r0 := "📊 *Laporan Minggu Ini - " ++ sn.1 ++ "*\nTotal: "
            ++ format_currency total ++ " (" ++ toString total_orders
            ++ " order)\n• Lunas: " ++ format_currency paid
            ++ "\n• Rata-rata: " ++ format_currency avg ++ "/order"
          .ok (okDict r0 (.weekly revenue), ["get-weekly-revenue"] ++ sn.2)

/-- `AnalyticsAgent.get_monthly_report`. -/
def get_monthly_report (tools : Except String Unit) (dflt : String)
    (cache : List (String × StoreRec)) (fetch : Except String (List StoreRec))
    (store_id : Option String)
    (revenueRes : Except String (Option RevenueRow))
    (popularRes : Except String (List ServiceRow)) :
    Except String (HandlerResult × List String) :=
  match tools with
  | .error e => .error e
  | .ok _ =>
    let eff := effectiveSid store_id dflt
    if eff = "" then .ok (ask_for_store_context "laporan bulanan" cache fetch)
    else
      match revenueRes with
      | .error e => .ok (errDict "Gagal mengambil laporan bulanan." e, ["get-monthly-revenue"])
      | .ok revOpt =>
        match popularRes with
        | .error e => .ok (errDict "Gagal mengambil laporan bulanan." e, ["get-monthly-revenue", "get-popular-services"])
        | .ok popular_services =>
          match revOpt with
          | none => .ok (okDict "Belum ada data transaksi bulan ini." .pynone, ["get-monthly-revenue", "get-popular-services"])
          | some revenue =>
            let total_orders := revenue.total_orders.getD 0
            let paid := revenue.paid_revenue.getD 0
            let total := revenue.total_revenue.getD 0
            let avg := revenue.average_order_value.getD 0
            let r0 := "📊 Bulan ini: " ++ format_currency total ++ " ("
              ++ toString total_orders ++ " order)\n• Lunas: " ++ format_currency paid
              ++ "\n• Rata-rata: " ++ format_currency avg ++ "/order"
            let svcName := fun (s : ServiceRow) =>
              let a := s.service_name.getD ""
              if a ≠ "" then a else s.name.getD "Layanan"
            let r1 := if popular_services ≠ [] then
                r0 ++ "\n🏆 Top: " ++ String.intercalate ", "
                  (((popular_services.take 3).map svcName).filter (fun n => n ≠ ""))
              else r0
            .ok (okDict r1 (.monthly revenue popular_services), ["get-monthly-revenue", "get-popular-services"])

/-- `AnalyticsAgent.compare_periods`. -/
def compare_periods (tools : Except String Unit) (period : String) (dflt : String)
    (cache : List (String × StoreRec)) (fetch : Except String (List StoreRec))
    (store_id : Option String)
    (comparisonRes : Except String (Option ComparisonRow)) :
    Except String (HandlerResult × List String) :=
  match tools with
  | .error e => .error e
  | .ok _ =>
    let eff := effectiveSid store_id dflt
    if eff = "" then .ok (ask_for_store_context "perbandingan pendapatan" cache fetch)
    else
      match comparisonRes with
      | .error e => .ok (errDict "Gagal membandingkan periode." e, ["compare-revenue-periods"])
      | .ok compOpt =>
        match compOpt with
        | none => .ok (okDict "Data tidak cukup untuk perbandingan." .pynone, ["compare-revenue-periods"])
        | some comparison =>
          let current := comparison.current_revenue.getD 0
          let previous := comparison.previous_revenue.getD 0
          let current_orders := comparison.current_orders.getD 0
          let previous_orders := comparison.previous_orders.getD 0
          let change := comparison.revenue_change_percent.getD 0
          let period_label := if period = "week" then "Minggu" else "Bulan"
          let trend := if change > 0 then "📈" else if change < 0 then "📉" else "➡️"
          let sn := get_store_name_by_id eff cache fetch
          let r0 := trend ++ " *Perbandingan Pendapatan - " ++ sn.1 ++ "*\n\n📅 *"
            ++ period_label ++ " Ini:*\n• Pendapatan: " ++ format_currency current
            ++ "\n• Jumlah Order: " ++ toString current_orders ++ "\n\n📅 *"
            ++ period_label ++ " Lalu:*\n• Pendapatan: " ++ format_currency previous
            ++ "\n• Jumlah Order: " ++ toString previous_orders
            ++ "\n\n📊 *Perubahan:* " ++ pySigned1f change ++ "%"
          .ok (okDict r0 (.comparison comparison), ["compare-revenue-periods"] ++ sn.2)

/-- `AnalyticsAgent.get_points_summary`.  Its effective store id uses the
truthiness form `store_id if store_id else self._store_id`, and its
clarification branch is an inline copy of the ask-for-store template. -/
def get_points_summary (tools : Except String Unit) (dflt : String)
    (cache : List (String × StoreRec)) (fetch : Except String (List StoreRec))
    (store_id : Option String)
    (summaryRes : Except String (Option PointsSummaryRow)) :
    Except String (HandlerResult × List String) :=
  match tools with
  | .error e => .error e
  | .ok _ =>
    let eff := match store_id with
      | some s => if s ≠ "" then s else dflt
      | none => dflt
    if eff = "" then
      let lc := load_store_cache cache fetch
      let store_names := (dictKeys lc.1).take 5
      let r0 := "📊 *Ringkasan Poin*\n\nMohon sebutkan nama toko untuk melihat ringkasan poin.\n\nContoh: `ringkasan poin toko [nama toko]`\n\n🏪 *Toko tersedia:*"
      let r1 := store_names.foldl (fun acc name => acc ++ "\n• " ++ pyTitle name) r0
      let r2 := if 5 < lc.1.length
        then r1 ++ "\n• ... dan " ++ toString (lc.1.length - 5) ++ " toko lainnya"
        else r1
      .ok (okDict r2 .requiresStore, lc.2)
    else
      match summaryRes with
      | .error e => .ok (errDict "Gagal mengambil ringkasan poin." e, ["get-points-summary-by-store"])
      | .ok sumOpt =>
        match sumOpt with
        | none => .ok (okDict "Belum ada data poin untuk toko ini." .pynone, ["get-points-summary-by-store"])
        | some summary =>
          let total_customers := summary.total_customers_with_points.getD 0
          let total_available := summary.total_available_points.getD 0
          let total_lifetime := summary.total_lifetime_points_issued.getD 0
          let avg_points := summary.avg_points_per_customer.getD 0
          let sn := get_store_name_by_id eff cache fetch
          let r0 := String.intercalate "\n"
            ["🎁 *Ringkasan Poin Loyalitas - " ++ sn.1 ++ "*\n",
             "👥 Pelanggan dengan poin: " ++ toString total_customers,
             "💰 Total poin tersedia: " ++ pyCommaInt total_available,
             "📈 Total poin diterbitkan: " ++ pyCommaInt total_lifetime,
             "📊 Rata-rata poin/pelanggan: " ++ pyDot0f avg_points]
          .ok (okDict r0 (.pointsSummary summary), ["get-points-summary-by-store"] ++ sn.2)

/-- `AnalyticsAgent.get_customer_points`. -/
def get_customer_points (tools : Except String Unit)
    (result : Except String (Option CustomerRow)) :
    Except String (HandlerResult × List String) :=
  match tools with
  | .error e => .error e
  | .ok _ =>
    match result with
    | .error e => .ok (errDict "Gagal mengambil data poin." e, ["get-customer-points"])
    | .ok custOpt =>
      match custOpt with
      | none => .ok (okDict "Nomor tidak ditemukan dalam sistem. Pastikan nomor HP benar atau pelanggan sudah terdaftar." .pynone, ["get-customer-points"])
      | some customer =>
        let name := customer.name.getD "-"
        let current_points := customer.points.getD 0
        let lifetime_points := customer.lifetime_points.getD current_points
        let parts0 := ["🎁 *Poin Loyalitas - " ++ name ++ "*\n",
          "📊 Poin tersedia: *" ++ pyCommaInt current_points ++ " poin*"]
        let parts1 := if lifetime_points > current_points then
            parts0 ++ ["📈 Total poin diperoleh: " ++ pyCommaInt lifetime_points ++ " poin",
              "🎯 Poin sudah ditukar: " ++ pyCommaInt (lifetime_points - current_points) ++ " poin"]
          else parts0
        let parts2 := parts1 ++ ["\n💡 *Cara mendapat poin:*",
          "• 1 poin per KG (layanan kiloan)", "• 1 poin per item (layanan satuan)"]
        .ok (okDict (String.intercalate "\n" parts2) (.customer customer), ["get-customer-points"])

/-- `strSub small big`: `small` occurs as a contiguous substring of `big`. -/
def strSub (small big : String) : Prop :=
  ∃ pre post : String, big = pre ++ small ++ post

/-! # Theorems -/

/-! ## Helper lemmas about strings and `format_uuid` -/

theorem str_toList_length (s : String) : s.length = s.toList.length := rfl

theorem str_mk_toList (l : List Char) : (String.mk l).toList = l := rfl

/-- Strings whose length is 36 and whose dash count is 4 are returned
unchanged by `_format_uuid`. -/
theorem format_uuid_fix36 (s : String) (h36 : s.length = 36)
    (h4 : s.toList.count '-' = 4) : format_uuid (.str s) = s := by
  have hne : s ≠ "" := by
    intro h
    rw [h] at h36
    simp at h36
  simp only [format_uuid, pyFalsy]
  rw [if_neg (by simpa using hne)]
  rw [if_pos ⟨h36, h4⟩]

theorem isLowerHex_isAnyHex {c : Char} (h : isLowerHex c = true) : isAnyHex c = true := by
  simp only [isLowerHex, Bool.or_eq_true] at h
  simp only [isAnyHex, Bool.or_eq_true]
  tauto

/-- In an all-hex character list there is no dash. -/
theorem count_dash_zero_of_hex {l : List Char} (h : l.all isAnyHex = true) :
    l.count '-' = 0 := by
  rw [List.count_eq_zero]
  intro hm
  have := List.all_eq_true.mp h _ hm
  simp [isAnyHex] at this

theorem all_take {l : List Char} {p : Char → Bool} (h : l.all p = true) (n : Nat) :
    (l.take n).all p = true :=
  List.all_eq_true.mpr (fun _ hx => List.all_eq_true.mp h _ (List.mem_of_mem_take hx))

theorem all_drop {l : List Char} {p : Char → Bool} (h : l.all p = true) (n : Nat) :
    (l.drop n).all p = true :=
  List.all_eq_true.mpr (fun _ hx => List.all_eq_true.mp h _ (List.mem_of_mem_drop hx))

theorem dashify_length {h : List Char} (hlen : h.length = 32) :
    (dashify h).length = 36 := by
  simp [dashify, hlen]

theorem dashify_count {h : List Char} (hnd : h.count '-' = 0) :
    (dashify h).count '-' = 4 := by
  have hm : ('-' : Char) ∉ h := List.count_eq_zero.mp hnd
  have t1 : (h.take 8).count '-' = 0 :=
    List.count_eq_zero.mpr (fun hx => hm (List.mem_of_mem_take hx))
  have t2 : ((h.drop 8).take 4).count '-' = 0 :=
    List.count_eq_zero.mpr (fun hx => hm (List.mem_of_mem_drop (List.mem_of_mem_take hx)))
  have t3 : ((h.drop 12).take 4).count '-' = 0 :=
    List.count_eq_zero.mpr (fun hx => hm (List.mem_of_mem_drop (List.mem_of_mem_take hx)))
  have t4 : ((h.drop 16).take 4).count '-' = 0 :=
    List.count_eq_zero.mpr (fun hx => hm (List.mem_of_mem_drop (List.mem_of_mem_take hx)))
  have t5 : (h.drop 20).count '-' = 0 :=
    List.count_eq_zero.mpr (fun hx => hm (List.mem_of_mem_drop hx))
  simp [dashify, List.count_append, List.count_cons, t1, t2, t3, t4, t5]

/-- The structural facts of a dashed UUID string: length 36 and exactly four
dashes. -/
theorem dashed_uuid_facts {s : String} (h : isDashedUuid s) :
    s.length = 36 ∧ s.toList.count '-' = 4 := by
  obtain ⟨a, b, c, d, e, heq, ha, hb, hc, hd, he, hxa, hxb, hxc, hxd, hxe⟩ := h
  constructor
  · rw [str_toList_length, heq]
    simp [ha, hb, hc, hd, he]
  · rw [heq]
    simp [List.count_append, List.count_cons,
      count_dash_zero_of_hex hxa, count_dash_zero_of_hex hxb,
      count_dash_zero_of_hex hxc, count_dash_zero_of_hex hxd,
      count_dash_zero_of_hex hxe]

theorem canonical_isDashed {s : String} (h : isCanonicalUuid s) : isDashedUuid s := by
  obtain ⟨a, b, c, d, e, heq, ha, hb, hc, hd, he, hxa, hxb, hxc, hxd, hxe⟩ := h
  refine ⟨a, b, c, d, e, heq, ha, hb, hc, hd, he, ?_, ?_, ?_, ?_, ?_⟩ <;>
    refine List.all_eq_true.mpr (fun x hx => isLowerHex_isAnyHex (List.all_eq_true.mp ?_ _ hx))
  exacts [hxa, hxb, hxc, hxd, hxe]

/-- `_format_uuid` leaves every dashed 36-character UUID string (either hex
case) unchanged. -/
theorem format_uuid_dashed_fix {s : String} (h : isDashedUuid s) :
    format_uuid (.str s) = s :=
  format_uuid_fix36 s (dashed_uuid_facts h).1 (dashed_uuid_facts h).2

set_option maxRecDepth 10000 in
/-- Byte values below 256 render as exactly two lowercase hex digits. -/
theorem hex02_facts : ∀ x < 256, (hex02 x).length = 2 ∧ (hex02 x).all isLowerHex = true := by
  decide

theorem bytesHex_length {b : List Nat} (hb : ∀ x ∈ b, x < 256) :
    (bytesHex b).length = 2 * b.length := by
  induction b with
  | nil => simp [bytesHex]
  | cons x xs ih =>
    have hx := (hex02_facts x (hb x (by simp))).1
    have := ih (fun y hy => hb y (by simp [hy]))
    simp only [bytesHex, List.map_cons, List.flatten_cons, List.length_append, hx,
      List.length_cons] at *
    omega

theorem bytesHex_lower {b : List Nat} (hb : ∀ x ∈ b, x < 256) :
    (bytesHex b).all isLowerHex = true := by
  induction b with
  | nil => simp [bytesHex]
  | cons x xs ih =>
    have hx := (hex02_facts x (hb x (by simp))).2
    have := ih (fun y hy => hb y (by simp [hy]))
    simp only [bytesHex, List.map_cons, List.flatten_cons, List.all_append] at *
    simp [hx, this]

/-- Dashing a 32-character lowercase-hex list yields a canonical UUID. -/
theorem dashify_canonical {h : List Char} (hlen : h.length = 32)
    (hall : h.all isLowerHex = true) : isCanonicalUuid (String.mk (dashify h)) := by
  refine ⟨h.take 8, (h.drop 8).take 4, (h.drop 12).take 4, (h.drop 16).take 4, h.drop 20,
    rfl, ?_, ?_, ?_, ?_, ?_, all_take hall 8, all_take (all_drop hall 8) 4,
    all_take (all_drop hall 12) 4, all_take (all_drop hall 16) 4, all_drop hall 20⟩ <;>
    simp [hlen]

/-- On a non-empty 32-character string, `_format_uuid` inserts the dashes. -/
theorem format_uuid_32 {s : String} (h32 : s.length = 32) :
    format_uuid (.str s) = String.mk (dashify s.toList) := by
  have hne : s ≠ "" := by
    intro h
    rw [h] at h32
    simp at h32
  simp only [format_uuid, pyFalsy]
  rw [if_neg (by simpa using hne)]
  rw [if_neg (by simp [h32]), if_pos h32]

/-- `_format_uuid` on a byte sequence (the `bytes`/`bytearray`/`memoryview`
branch): hex-encode and dash. -/
theorem format_uuid_bytes {b : List Nat} (hne : b ≠ []) :
    format_uuid (.bytes b) = String.mk (dashify (bytesHex b)) := by
  simp only [format_uuid, pyFalsy]
  rw [if_neg (by simpa using hne)]

/-- `_format_uuid` on an integer sequence of length 16. -/
theorem format_uuid_ints {l : List Nat} (h16 : l.length = 16) :
    format_uuid (.ints l) = String.mk (dashify (bytesHex l)) := by
  have hne : l ≠ [] := by
    intro h
    rw [h] at h16
    simp at h16
  simp only [format_uuid, pyFalsy]
  rw [if_neg (by simpa using hne), if_pos h16]

/-- The normalization of any accepted encoding is a fixed point of
`_format_uuid` (the idempotence workhorse shared by several claims). -/
theorem format_uuid_idem_accepted {v : PyValue} (h : acceptedEncoding v) :
    format_uuid (.str (format_uuid v)) = format_uuid v := by
  cases v with
  | none => rfl
  | str s =>
    rcases h with h | h | ⟨h32, hhex⟩
    · subst h; rfl
    · rw [format_uuid_dashed_fix h, format_uuid_dashed_fix h]
    · rw [format_uuid_32 h32]
      have hl : s.toList.length = 32 := h32
      exact format_uuid_fix36 _ (dashify_length hl)
        (dashify_count (count_dash_zero_of_hex hhex))
  | bytes b =>
    rcases h with h | ⟨h16, hb⟩
    · subst h; rfl
    · have hne : b ≠ [] := by
        intro h
        rw [h] at h16
        simp at h16
      rw [format_uuid_bytes hne]
      have hlen : (bytesHex b).length = 32 := by rw [bytesHex_length hb, h16]
      have hlow : (bytesHex b).all isAnyHex = true :=
        List.all_eq_true.mpr
          (fun x hx => isLowerHex_isAnyHex (List.all_eq_true.mp (bytesHex_lower hb) _ hx))
      exact format_uuid_fix36 _ (dashify_length hlen)
        (dashify_count (count_dash_zero_of_hex hlow))
  | ints l =>
    rcases h with h | ⟨h16, hb⟩
    · subst h; rfl
    · rw [format_uuid_ints h16]
      have hlen : (bytesHex l).length = 32 := by rw [bytesHex_length hb, h16]
      have hlow : (bytesHex l).all isAnyHex = true :=
        List.all_eq_true.mpr
          (fun x hx => isLowerHex_isAnyHex (List.all_eq_true.mp (bytesHex_lower hb) _ hx))
      exact format_uuid_fix36 _ (dashify_length hlen)
        (dashify_count (count_dash_zero_of_hex hlow))

/-! ## C6: UUID normalization across encodings -/

/-- C6 counterexample: the claim promises the canonical dashed **lowercase**
form for every accepted encoding, but `_format_uuid` returns a dashed
36-character UUID string unchanged without lowercasing: on the accepted input
"AAAAAAAA-AAAA-AAAA-AAAA-AAAAAAAAAAAA" it returns the uppercase string, not
that UUID's canonical lowercase form "aaaaaaaa-aaaa-aaaa-aaaa-aaaaaaaaaaaa". -/
theorem c6_counterexample :
    acceptedEncoding (PyValue.str "AAAAAAAA-AAAA-AAAA-AAAA-AAAAAAAAAAAA") ∧
    format_uuid (PyValue.str "AAAAAAAA-AAAA-AAAA-AAAA-AAAAAAAAAAAA")
      = "AAAAAAAA-AAAA-AAAA-AAAA-AAAAAAAAAAAA" ∧
    isCanonicalUuid "aaaaaaaa-aaaa-aaaa-aaaa-aaaaaaaaaaaa" ∧
    format_uuid (PyValue.str "AAAAAAAA-AAAA-AAAA-AAAA-AAAAAAAAAAAA")
      ≠ "aaaaaaaa-aaaa-aaaa-aaaa-aaaaaaaaaaaa" := by
  refine ⟨Or.inr (Or.inl ⟨List.replicate 8 'A', List.replicate 4 'A', List.replicate 4 'A',
    List.replicate 4 'A', List.replicate 12 'A', by decide, by decide, by decide, by decide,
    by decide, by decide, by decide, by decide, by decide, by decide, by decide⟩),
    by decide,
    ⟨List.replicate 8 'a', List.replicate 4 'a', List.replicate 4 'a',
      List.replicate 4 'a', List.replicate 12 'a', by decide, by decide, by decide,
      by decide, by decide, by decide, by decide, by decide, by decide, by decide,
      by decide⟩,
    by decide⟩

/-- C6 (amended): for accepted encodings whose hex digits are lowercase,
`normalize_uuid` returns the canonical dashed lowercase 36-character form —
an already-canonical string unchanged, a lowercase 32-character hex string
dashed, a 16-byte sequence and a 16-entry integer byte sequence hex-encoded
and dashed; a 16-byte sequence and its undashed hex-string rendering
normalize identically; every falsy input yields ""; but a string input's hex
digits keep their original case (they are not lowercased, per the
counterexample). -/
theorem c6_normalize_uuid_amended :
    (∀ u : String, isCanonicalUuid u → format_uuid (.str u) = u)
    ∧ (∀ s : String, s.length = 32 → s.toList.all isLowerHex = true →
        format_uuid (.str s) = String.mk (dashify s.toList)
        ∧ isCanonicalUuid (format_uuid (.str s)))
    ∧ (∀ b : List Nat, b.length = 16 → (∀ x ∈ b, x < 256) →
        format_uuid (.bytes b) = format_uuid (.str (String.mk (bytesHex b)))
        ∧ format_uuid (.ints b) = format_uuid (.bytes b)
        ∧ isCanonicalUuid (format_uuid (.bytes b)))
    ∧ (∀ v : PyValue, pyFalsy v = true → format_uuid v = "") := by
  refine ⟨fun u h => format_uuid_dashed_fix (canonical_isDashed h), ?_, ?_, ?_⟩
  · intro s h32 hlow
    refine ⟨format_uuid_32 h32, ?_⟩
    rw [format_uuid_32 h32]
    exact dashify_canonical h32 hlow
  · intro b h16 hb
    have hne : b ≠ [] := by
      intro h
      rw [h] at h16
      simp at h16
    have hlen : (bytesHex b).length = 32 := by rw [bytesHex_length hb, h16]
    have hlen' : (String.mk (bytesHex b)).length = 32 := hlen
    refine ⟨?_, ?_, ?_⟩
    · rw [format_uuid_bytes hne, format_uuid_32 hlen', str_mk_toList]
    · rw [format_uuid_ints h16, format_uuid_bytes hne]
    · rw [format_uuid_bytes hne]
      exact dashify_canonical hlen (bytesHex_lower hb)
  · intro v hv
    cases v with
    | none => rfl
    | str s => simp only [format_uuid, hv, if_pos]
    | bytes b => simp only [format_uuid, hv, if_pos]
    | ints l => simp only [format_uuid, hv, if_pos]

/-- C6 witness: the amended theorem applied at a canonical string, at a
concrete 16-byte sequence against its hex string, and at the falsy empty
string. -/
theorem c6_witness :
    format_uuid (.str "29edf3ae-6ac3-42b3-abf8-90494dcdc7c5")
      = "29edf3ae-6ac3-42b3-abf8-90494dcdc7c5"
    ∧ format_uuid (.bytes (List.replicate 16 171))
      = format_uuid (.str (String.mk (bytesHex (List.replicate 16 171))))
    ∧ format_uuid (.str "") = "" := by
  refine ⟨c6_normalize_uuid_amended.1 _ ⟨"29edf3ae".toList, "6ac3".toList, "42b3".toList,
      "abf8".toList, "90494dcdc7c5".toList, by decide, by decide, by decide, by decide,
      by decide, by decide, by decide, by decide, by decide, by decide, by decide⟩,
    (c6_normalize_uuid_amended.2.2.1 _ (by decide) (by decide)).1,
    c6_normalize_uuid_amended.2.2.2 (.str "") (by decide)⟩

/-! ## C7: UUID normalization idempotence -/

/-- C7: normalizing an already-canonical 36-character dashed UUID string
returns it unchanged, and `normalize_uuid (normalize_uuid v) =
normalize_uuid v` for every input of an accepted encoding. -/
theorem c7_normalize_uuid_idempotent :
    (∀ u : String, isCanonicalUuid u → format_uuid (.str u) = u)
    ∧ (∀ v : PyValue, acceptedEncoding v →
        format_uuid (.str (format_uuid v)) = format_uuid v) :=
  ⟨fun _ h => format_uuid_dashed_fix (canonical_isDashed h),
   fun _ h => format_uuid_idem_accepted h⟩

/-- C7 witness: idempotence at a concrete canonical string and at a concrete
byte sequence. -/
theorem c7_witness :
    format_uuid (.str "29edf3ae-6ac3-42b3-abf8-90494dcdc7c5")
      = "29edf3ae-6ac3-42b3-abf8-90494dcdc7c5"
    ∧ format_uuid (.str (format_uuid (.bytes (List.range 16))))
      = format_uuid (.bytes (List.range 16)) := by
  refine ⟨c7_normalize_uuid_idempotent.1 _ ⟨"29edf3ae".toList, "6ac3".toList, "42b3".toList,
      "abf8".toList, "90494dcdc7c5".toList, by decide, by decide, by decide, by decide,
      by decide, by decide, by decide, by decide, by decide, by decide, by decide⟩,
    c7_normalize_uuid_idempotent.2 _ (Or.inr ⟨by decide, by decide⟩)⟩

/-! ## C10: store-cache normalization invariant -/

theorem cacheNormalized_nil : cacheNormalized [] := by
  intro p hp
  simp at hp

theorem cacheNormalized_of_cons {x : String × StoreRec} {rest : List (String × StoreRec)}
    (h : cacheNormalized (x :: rest)) : cacheNormalized rest :=
  fun p hp => h p (List.mem_cons_of_mem _ hp)

theorem cacheNormalized_dictInsert {c : List (String × StoreRec)} {k : String}
    {v : StoreRec} (hc : cacheNormalized c)
    (hv : ∃ s, v.id = PyValue.str s ∧ format_uuid (.str s) = s) :
    cacheNormalized (dictInsert k v c) := by
  induction c with
  | nil =>
    intro p hp
    simp only [dictInsert, List.mem_singleton] at hp
    subst hp
    exact hv
  | cons x rest ih =>
    obtain ⟨k', v'⟩ := x
    simp only [dictInsert]
    split
    · intro p hp
      rcases List.mem_cons.mp hp with h | h
      · subst h; exact hv
      · exact hc _ (List.mem_cons_of_mem _ h)
    · intro p hp
      rcases List.mem_cons.mp hp with h | h
      · subst h; exact hc _ (List.mem_cons_self _ _)
      · exact ih (cacheNormalized_of_cons hc) _ h

theorem cacheNormalized_load_fold {stores : List StoreRec} :
    ∀ {cache : List (String × StoreRec)}, cacheNormalized cache →
    (∀ st ∈ stores, acceptedEncoding st.id) →
    cacheNormalized (stores.foldl
      (fun c s => dictInsert (lowerStr s.name) { s with id := .str (format_uuid s.id) } c)
      cache) := by
  induction stores with
  | nil => intro cache hc _; simpa using hc
  | cons st sts ih =>
    intro cache hc hacc
    simp only [List.foldl_cons]
    exact ih
      (cacheNormalized_dictInsert hc
        ⟨format_uuid st.id, rfl, format_uuid_idem_accepted (hacc st (by simp))⟩)
      (fun s hs => hacc s (by simp [hs]))

/-- C10 counterexample: the cache update inside `list_stores` stores the
fetched record verbatim; a store whose raw id is a 32-character undashed hex
string is cached with that id, and re-applying `normalize_uuid` to it does
not leave it unchanged (it inserts dashes) — so the invariant, as claimed
over `list_stores` as well, fails. -/
theorem c10_counterexample :
    list_stores_cache_update []
        [⟨.str "1234567890abcdef1234567890abcdef", "Toko B", "-", "-"⟩]
      = [("toko b", ⟨.str "1234567890abcdef1234567890abcdef", "Toko B", "-", "-"⟩)]
    ∧ ¬ cacheNormalized
        [("toko b", ⟨.str "1234567890abcdef1234567890abcdef", "Toko B", "-", "-"⟩)] := by
  constructor
  · decide
  · intro h
    obtain ⟨s, hs, hf⟩ := h _ (List.mem_singleton.mpr rfl)
    have hseq : s = "1234567890abcdef1234567890abcdef" := by
      have := hs
      simp only [PyValue.str.injEq] at this
      exact this.symm
    subst hseq
    exact absurd hf (by decide)

/-- C10 (amended): the invariant holds for the entries `_load_store_cache`
writes — starting from a normalized cache, after `_load_store_cache` every
cached record's id is a string fixed by `normalize_uuid`, provided the
fetched raw ids are in accepted encodings; `list_stores`, however, caches raw
records without normalizing, so the invariant does not extend to it (per the
counterexample). -/
theorem c10_cache_normalized_amended :
    ∀ (cache : List (String × StoreRec)) (fetch : Except String (List StoreRec)),
      cacheNormalized cache →
      (∀ stores, fetch = .ok stores → ∀ st ∈ stores, acceptedEncoding st.id) →
      cacheNormalized (load_store_cache cache fetch).1 := by
  intro cache fetch hc hacc
  simp only [load_store_cache]
  split
  · match fetch, hacc with
    | .error e, _ => exact hc
    | .ok stores, hacc => exact cacheNormalized_load_fold hc (hacc stores rfl)
  · exact hc

/-- C10 witness: loading an empty cache from a fetch returning one store
with a 16-byte raw id yields a normalized cache. -/
theorem c10_witness :
    cacheNormalized
      (load_store_cache [] (.ok [⟨.bytes (List.range 16), "Toko A", "-", "-"⟩])).1 := by
  refine c10_cache_normalized_amended [] _ cacheNormalized_nil ?_
  intro stores h st hst
  cases h
  simp only [List.mem_singleton] at hst
  subst hst
  exact Or.inr ⟨by decide, by decide⟩

/-! ## C2: LLM fallback discipline -/

/-- C2: the LLM fallback is consulted only when the keyword stage returned
`"general"` and the fallback is enabled (result-wise: with the fallback
disabled, or a non-general keyword result, the keyword result stands for
every LLM outcome); each degraded LLM outcome — missing client, exception,
unparsable JSON — classifies to the all-`"general"` default without raising
(the stage is a total function), so it never replaces the keyword result; and
the fallback's result replaces the keyword result exactly when its own intent
is not `"general"`. -/
theorem c2_llm_fallback :
    (∀ q llm, classify_query q false llm = classify_intent_with_keywords q)
    ∧ (∀ q use llm, (classify_intent_with_keywords q).intent ≠ "general" →
        classify_query q use llm = classify_intent_with_keywords q)
    ∧ (classify_intent_with_llm .noClient = general_default
       ∧ classify_intent_with_llm .exn = general_default
       ∧ classify_intent_with_llm .parseFail = general_default)
    ∧ (∀ q use, classify_query q use .noClient = classify_intent_with_keywords q
        ∧ classify_query q use .exn = classify_intent_with_keywords q
        ∧ classify_query q use .parseFail = classify_intent_with_keywords q)
    ∧ (∀ q llm, (classify_intent_with_keywords q).intent = "general" →
        (classify_intent_with_llm llm).intent ≠ "general" →
        classify_query q true llm = classify_intent_with_llm llm) := by
  refine ⟨?_, ?_, ⟨rfl, rfl, rfl⟩, ?_, ?_⟩
  · intro q llm
    simp [classify_query]
  · intro q use llm h
    simp [classify_query, h]
  · intro q use
    refine ⟨?_, ?_, ?_⟩ <;>
      · simp only [classify_query, classify_intent_with_llm]
        split
        · simp [general_default]
        · rfl
  · intro q llm h1 h2
    simp [classify_query, h1, h2]

/-- C2 witness: a non-general keyword result ("banding" classifies as a
comparison) survives an LLM outcome proposing a different intent, and a
general keyword result ("halo") is replaced by a non-general parsed LLM
intent. -/
theorem c2_witness :
    classify_query "banding" true (.parsed (some "daily_revenue") none none none)
      = classify_intent_with_keywords "banding"
    ∧ classify_query "halo" true (.parsed (some "daily_revenue") none none none)
      = classify_intent_with_llm (.parsed (some "daily_revenue") none none none) :=
  ⟨c2_llm_fallback.2.1 "banding" true _ (by decide),
   c2_llm_fallback.2.2.2.2 "halo" _ (by decide) (by decide)⟩

/-! ## C9: revenue growth computation -/

/-- C9 counterexample: the returned `growth_percentage` field is the raw
percentage rounded to two decimals, not the exact `(current - previous) /
previous * 100`: at previous = 3, current = 2 the exact value is −100/3 but
the field is −33.33; moreover `growth_direction` follows the sign of the raw
(unrounded) percentage, so at previous = 100000, current = 100001 the field
is 0 while the direction is "up", contradicting "direction according to the
sign of growth_percentage" read on the returned field. -/
theorem c9_counterexample :
    (compare_revenue 3 10 2 20).growth_percentage ≠ ((2 - 3) / 3) * 100
    ∧ (compare_revenue 3 10 2 20).growth_percentage = -3333/100
    ∧ (compare_revenue 100000 5 100001 6).growth_percentage = 0
    ∧ (compare_revenue 100000 5 100001 6).growth_direction = "up" := by
  refine ⟨?_, ?_, ?_, ?_⟩
  · norm_num [compare_revenue, pyRound2, roundHalfEven]
  · norm_num [compare_revenue, pyRound2, roundHalfEven]
  · norm_num [compare_revenue, pyRound2, roundHalfEven]
  · norm_num [compare_revenue]

/-- C9 (amended): with previous = period 1's paid revenue and current =
period 2's, the returned `growth_percentage` equals `round₂((current −
previous)/previous · 100)` when previous > 0, with the direction determined
by the sign of the unrounded percentage (equivalently, by comparing current
against previous); `growth_percentage = 0` and direction "flat" when both are
0; `growth_percentage = 100` and direction "up" when previous = 0 <
current. -/
theorem c9_growth_amended :
    (∀ (p c : ℚ) (n1 n2 : Nat), p > 0 →
        (compare_revenue p n1 c n2).growth_percentage = pyRound2 (((c - p) / p) * 100)
        ∧ ((compare_revenue p n1 c n2).growth_direction = "up" ↔ c > p)
        ∧ ((compare_revenue p n1 c n2).growth_direction = "down" ↔ c < p)
        ∧ ((compare_revenue p n1 c n2).growth_direction = "flat" ↔ c = p))
    ∧ (∀ n1 n2 : Nat, (compare_revenue 0 n1 0 n2).growth_percentage = 0
        ∧ (compare_revenue 0 n1 0 n2).growth_direction = "flat")
    ∧ (∀ (c : ℚ) (n1 n2 : Nat), c > 0 →
        (compare_revenue 0 n1 c n2).growth_percentage = 100
        ∧ (compare_revenue 0 n1 c n2).growth_direction = "up") := by
  refine ⟨?_, ?_, ?_⟩
  · intro p c n1 n2 hp
    have hk : (0 : ℚ) < 100 / p := by positivity
    have hrw : (c - p) / p * 100 = (c - p) * (100 / p) := by ring
    have hpos : (0 < (c - p) / p * 100) ↔ c > p := by
      rw [hrw, mul_pos_iff_of_pos_right hk]
      constructor <;> intro h <;> linarith
    have hneg : ((c - p) / p * 100 < 0) ↔ c < p := by
      constructor
      · intro h
        by_contra hcp
        push_neg at hcp
        have : 0 ≤ (c - p) * (100 / p) := mul_nonneg (by linarith) (le_of_lt hk)
        rw [hrw] at h
        linarith
      · intro h
        rw [hrw]
        have : (c - p) * (100 / p) < 0 := mul_neg_of_neg_of_pos (by linarith) hk
        linarith
    refine ⟨by simp [compare_revenue, if_pos hp], ?_, ?_, ?_⟩ <;>
      · simp only [compare_revenue, if_pos hp]
        split_ifs with h1 h2 <;> simp_all [hpos, hneg] <;> try linarith
  · intro n1 n2
    norm_num [compare_revenue, pyRound2, roundHalfEven]
  · intro c n1 n2 hc
    simp only [compare_revenue, lt_irrefl, if_neg (lt_irrefl 0), if_pos hc]
    norm_num [pyRound2, roundHalfEven]

/-- C9 witness: the amended theorem applied at previous = 3, current = 2 and
at previous = 0, current = 5. -/
theorem c9_witness :
    (compare_revenue 3 10 2 20).growth_percentage = pyRound2 (((2 - 3) / 3) * 100)
    ∧ (compare_revenue 0 0 5 0).growth_percentage = 100 :=
  ⟨(c9_growth_amended.1 3 2 10 20 (by norm_num)).1,
   (c9_growth_amended.2.2 5 0 0 (by norm_num)).1⟩

/-! ## C3: store match scoring -/

theorem score_foldl_eq_sum (P : String → Bool) (B : String → Nat) :
    ∀ (l : List String) (acc : Nat),
      l.foldl (fun a w => if P w then a + 1 + B w else a) acc
        = acc + (l.map (fun w => if P w then 1 + B w else 0)).sum := by
  intro l
  induction l with
  | nil => intro acc; simp
  | cons x xs ih =>
    intro acc
    simp only [List.foldl_cons, List.map_cons, List.sum_cons]
    rw [ih]
    by_cases h : P x
    · simp [h]
      omega
    · simp [h]

/-- C3 counterexample: against the store name "ruang laundry sudirman" the
query "toko laundry" scores 1, not 0 as claimed — the common word "laundry"
still earns its base point (only the 2-point uniqueness bonus is withheld). -/
theorem c3_counterexample :
    calculate_store_match_score "ruang laundry sudirman" "toko laundry" = 1
    ∧ calculate_store_match_score "ruang laundry sudirman" "toko laundry" ≠ 0 :=
  ⟨by decide, by decide⟩

/-- C3 (amended): the score is 1 point per store-name word (whitespace-split,
length > 1) found as a substring of the query, plus 2 extra points when the
word is outside the stop-set, plus a flat 5 when the full store name occurs
verbatim (proved equal to the spec's formula); "laporan toko sudirman" scores
3 > 2 for "ruang laundry sudirman", while "toko laundry" scores 1 (not 0),
still below the acceptance threshold of 2. -/
theorem c3_match_score_amended :
    (∀ sn q, calculate_store_match_score sn q = spec_match_score sn q)
    ∧ calculate_store_match_score "ruang laundry sudirman" "laporan toko sudirman" = 3
    ∧ 2 < calculate_store_match_score "ruang laundry sudirman" "laporan toko sudirman"
    ∧ calculate_store_match_score "ruang laundry sudirman" "toko laundry" = 1 := by
  refine ⟨?_, by decide, by decide, by decide⟩
  intro sn q
  simp only [calculate_store_match_score, spec_match_score]
  rw [score_foldl_eq_sum]
  have hpt : ((pyWords sn).filter (fun w => w.length > 1)).map
      (fun w => if strContains q w then
        1 + (if (((pyWords sn).filter (fun w => w.length > 1)).filter
          (fun w => !(common_words.contains w))).contains w then 2 else 0) else 0)
      = ((pyWords sn).filter (fun w => w.length > 1)).map
      (fun w => if strContains q w then
        1 + (if common_words.contains w then 0 else 2) else 0) := by
    refine List.map_congr_left ?_
    intro w hw
    have hw' := List.mem_filter.mp hw
    have hwlen : 1 < w.length := by simpa using hw'.2
    by_cases hcw : w ∈ common_words
    · simp [List.contains, List.elem_eq_mem, List.mem_filter, hcw]
    · simp [List.contains, List.elem_eq_mem, List.mem_filter, hcw, hw'.1, hwlen]
  rw [hpt]
  by_cases hfull : strContains q sn = true <;> simp [hfull]

/-! ## C1: keyword-stage priority order -/

/-- C1: the keyword stage resolves the intent by testing the category
predicates in exactly the spec's fixed priority order, first true predicate
winning (proved as equality with the priority-list resolution); a message
containing both "banding" and "bulan" classifies as `compare_periods`, never
`monthly_revenue`; and when no predicate holds the intent is `"general"`. -/
theorem c1_keyword_priority :
    (∀ q, (classify_intent_with_keywords q).intent = first_true_intent intent_priority q)
    ∧ (∀ q, strContains q "banding" = true → strContains q "bulan" = true →
        (classify_intent_with_keywords q).intent = "compare_periods"
        ∧ (classify_intent_with_keywords q).intent ≠ "monthly_revenue")
    ∧ (∀ q, intent_priority.all (fun pr => !(pr.1 q)) = true →
        (classify_intent_with_keywords q).intent = "general") := by
  refine ⟨?_, ?_, ?_⟩
  · intro q
    simp only [classify_intent_with_keywords, intent_priority, first_true_intent,
      apply_ite Classification.intent]
  · intro q h1 h2
    have hcomp : is_comparison_query q = true := by
      simp only [is_comparison_query, comparison_keywords, List.any_eq_true]
      exact ⟨"banding", by simp, h1⟩
    constructor
    · simp [classify_intent_with_keywords, hcomp]
    · simp [classify_intent_with_keywords, hcomp]
  · intro q hall
    simp only [intent_priority, List.all_cons, List.all_nil, Bool.and_eq_true,
      Bool.not_eq_true', and_true] at hall
    obtain ⟨h1, h2, h3, h4, h5, h6, h7, h8, h9, h10, h11, h12, h13, h14, h15⟩ := hall
    simp [classify_intent_with_keywords, h1, h2, h3, h4, h5, h6, h7, h8, h9, h10,
      h11, h12, h13, h14, h15]

/-- C1 witness: "banding pendapatan bulan ini" (a comparison keyword plus a
monthly keyword) classifies as `compare_periods`, and "halo" (no keyword of
any category) classifies as `"general"`. -/
theorem c1_witness :
    (classify_intent_with_keywords "banding pendapatan bulan ini").intent
      = "compare_periods"
    ∧ (classify_intent_with_keywords "halo").intent = "general" :=
  ⟨(c1_keyword_priority.2.1 "banding pendapatan bulan ini" (by decide) (by decide)).1,
   c1_keyword_priority.2.2 "halo" (by decide)⟩

/-! ## C4: store-context clarification responses -/

theorem str_eq_of_data {a b : String} (h : a.data = b.data) : a = b := by
  cases a
  cases b
  exact congrArg String.mk h

theorem strSub_iff {s b : String} : strSub s b ↔ s.data <:+: b.data := by
  constructor
  · rintro ⟨p, q, rfl⟩
    exact ⟨p.data, q.data, by simp [String.data_append]⟩
  · rintro ⟨p, q, h⟩
    refine ⟨String.mk p, String.mk q, str_eq_of_data ?_⟩
    rw [← h]
    simp [String.data_append]

theorem mid_appl {l m : List Char} (h : l <:+: m) (a : List Char) : l <:+: a ++ m := by
  obtain ⟨p, q, rfl⟩ := h
  exact ⟨a ++ p, q, by simp [List.append_assoc]⟩

theorem mid_appr {l m : List Char} (h : l <:+: m) (a : List Char) : l <:+: m ++ a := by
  obtain ⟨p, q, rfl⟩ := h
  exact ⟨p, q ++ a, by simp [List.append_assoc]⟩

/-- Pulling an accumulator out of the `+= "\n• " + name.title()` loop. -/
theorem foldl_names_shift (ns : List String) :
    ∀ acc : String, ns.foldl (fun a n => a ++ "\n• " ++ pyTitle n) acc
      = acc ++ ns.foldl (fun a n => a ++ "\n• " ++ pyTitle n) "" := by
  induction ns with
  | nil =>
    intro acc
    apply str_eq_of_data
    simp [String.data_append]
  | cons x xs ih =>
    intro acc
    simp only [List.foldl_cons]
    rw [ih (acc ++ "\n• " ++ pyTitle x), ih ("" ++ "\n• " ++ pyTitle x)]
    apply str_eq_of_data
    simp [String.data_append, List.append_assoc]

/-- Every listed name appears, bulleted and title-cased, in the rendered
names block. -/
theorem mem_names_strSub {n : String} {ns : List String} (h : n ∈ ns) :
    strSub ("• " ++ pyTitle n) (ns.foldl (fun a x => a ++ "\n• " ++ pyTitle x) "") := by
  obtain ⟨l1, l2, rfl⟩ := List.append_of_mem h
  rw [List.foldl_append, List.foldl_cons, foldl_names_shift]
  refine ⟨(l1.foldl (fun a x => a ++ "\n• " ++ pyTitle x) "") ++ "\n",
    l2.foldl (fun a x => a ++ "\n• " ++ pyTitle x) "", ?_⟩
  apply str_eq_of_data
  simp [String.data_append, List.append_assoc]

/-- The data-store calls a cache load can make: none, or one `list-stores`. -/
theorem load_calls_cases (cache : List (String × StoreRec))
    (fetch : Except String (List StoreRec)) :
    (load_store_cache cache fetch).2 = [] ∨
    (load_store_cache cache fetch).2 = ["list-stores"] := by
  simp only [load_store_cache]
  split
  · cases fetch <;> simp
  · simp

/-- The full property bundle of `_ask_for_store_context`: a success response
carrying no error, asking the user to name a store, listing (bulleted and
title-cased) each of the first at-most-five cached store names, and touching
the data store at most to list stores. -/
theorem ask_for_store_context_props (rt : String) (cache : List (String × StoreRec))
    (fetch : Except String (List StoreRec)) :
    (ask_for_store_context rt cache fetch).1.success = true
    ∧ (ask_for_store_context rt cache fetch).1.error = none
    ∧ (ask_for_store_context rt cache fetch).1.data = some .requiresStore
    ∧ strSub "Mohon sebutkan nama toko" (ask_for_store_context rt cache fetch).1.response
    ∧ (∀ n ∈ (dictKeys (load_store_cache cache fetch).1).take 5,
        strSub ("• " ++ pyTitle n) (ask_for_store_context rt cache fetch).1.response)
    ∧ ((dictKeys (load_store_cache cache fetch).1).take 5).length ≤ 5
    ∧ (∀ s, s ≠ "list-stores" → s ∉ (ask_for_store_context rt cache fetch).2) := by
  have base : ("Mohon sebutkan nama toko" : String).data
      <:+: ("*\n\nMohon sebutkan nama toko untuk melihat " : String).data :=
    ⟨("*\n\n" : String).data, (" untuk melihat " : String).data, by decide⟩
  refine ⟨rfl, rfl, rfl, ?_, ?_, ?_, ?_⟩
  · rw [strSub_iff]
    simp only [ask_for_store_context]
    split <;>
      · rw [foldl_names_shift]
        simp only [String.data_append, List.append_assoc]
        repeat first
          | exact mid_appr base _
          | refine mid_appl ?_ _
  · intro n hn
    have base2 := strSub_iff.mp (mem_names_strSub hn)
    rw [strSub_iff]
    simp only [ask_for_store_context]
    split <;>
      · rw [foldl_names_shift]
        simp only [String.data_append, List.append_assoc]
        repeat first
          | exact mid_appr base2 _
          | refine mid_appl ?_ _
  · exact List.length_take_le 5 _
  · intro s hs hmem
    have h2 : (ask_for_store_context rt cache fetch).2
        = (load_store_cache cache fetch).2 := rfl
    rw [h2] at hmem
    rcases load_calls_cases cache fetch with h | h
    · rw [h] at hmem
      simp at hmem
    · rw [h] at hmem
      simp at hmem
      exact hs hmem


/-- C4: every store-scoped report handler (daily, weekly, monthly, period
comparison, points summary), when its effective store id is empty, returns
the clarification response — `success = true`, no error, text asking the
user to name a store ("Mohon sebutkan nama toko"), listing the first at most
five cached store names — and performs no report query against the data
store (at most the store-list fetch used to show examples). -/
theorem c4_missing_store_clarification :
    (∀ (d : String) cache fetch sid rres sres, effectiveSid sid d = "" →
      get_daily_report (.ok ()) d cache fetch sid rres sres
        = .ok (ask_for_store_context "laporan harian" cache fetch))
    ∧ (∀ (d : String) cache fetch sid rres, effectiveSid sid d = "" →
      get_weekly_report (.ok ()) d cache fetch sid rres
        = .ok (ask_for_store_context "laporan mingguan" cache fetch))
    ∧ (∀ (d : String) cache fetch sid rres pres, effectiveSid sid d = "" →
      get_monthly_report (.ok ()) d cache fetch sid rres pres
        = .ok (ask_for_store_context "laporan bulanan" cache fetch))
    ∧ (∀ (period d : String) cache fetch sid cres, effectiveSid sid d = "" →
      compare_periods (.ok ()) period d cache fetch sid cres
        = .ok (ask_for_store_context "perbandingan pendapatan" cache fetch))
    ∧ (∀ (d : String) cache fetch sid sres,
        (match sid with | some s => if s ≠ "" then s else d | none => d) = "" →
        ∃ resp calls, get_points_summary (.ok ()) d cache fetch sid sres
          = .ok ({ success := true, response := resp, data := some .requiresStore,
                   error := none }, calls)
        ∧ strSub "Mohon sebutkan nama toko" resp
        ∧ (∀ n ∈ (dictKeys (load_store_cache cache fetch).1).take 5,
            strSub ("• " ++ pyTitle n) resp)
        ∧ (∀ s, s ≠ "list-stores" → s ∉ calls))
    ∧ (∀ rt cache fetch,
        (ask_for_store_context rt cache fetch).1.success = true
        ∧ (ask_for_store_context rt cache fetch).1.error = none
        ∧ strSub "Mohon sebutkan nama toko" (ask_for_store_context rt cache fetch).1.response
        ∧ (∀ n ∈ (dictKeys (load_store_cache cache fetch).1).take 5,
            strSub ("• " ++ pyTitle n) (ask_for_store_context rt cache fetch).1.response)
        ∧ ((dictKeys (load_store_cache cache fetch).1).take 5).length ≤ 5
        ∧ (∀ s, s ≠ "list-stores" → s ∉ (ask_for_store_context rt cache fetch).2)) := by
  refine ⟨?_, ?_, ?_, ?_, ?_, ?_⟩
  · intro d cache fetch sid rres sres h
    simp [get_daily_report, h]
  · intro d cache fetch sid rres h
    simp [get_weekly_report, h]
  · intro d cache fetch sid rres pres h
    simp [get_monthly_report, h]
  · intro period d cache fetch sid cres h
    simp [compare_periods, h]
  · intro d cache fetch sid sres h
    have base : ("Mohon sebutkan nama toko" : String).data
        <:+: ("📊 *Ringkasan Poin*\n\nMohon sebutkan nama toko untuk melihat ringkasan poin.\n\nContoh: `ringkasan poin toko [nama toko]`\n\n🏪 *Toko tersedia:*" : String).data :=
      ⟨("📊 *Ringkasan Poin*\n\n" : String).data,
       (" untuk melihat ringkasan poin.\n\nContoh: `ringkasan poin toko [nama toko]`\n\n🏪 *Toko tersedia:*" : String).data,
       by decide⟩
    simp only [get_points_summary, h, if_pos]
    refine ⟨_, _, rfl, ?_, ?_, ?_⟩
    · rw [strSub_iff]
      split <;>
        · rw [foldl_names_shift]
          simp only [String.data_append, List.append_assoc]
          repeat first
            | exact mid_appr base _
            | exact base
            | refine mid_appl ?_ _
    · intro n hn
      have base2 := strSub_iff.mp (mem_names_strSub hn)
      rw [strSub_iff]
      split <;>
        · rw [foldl_names_shift]
          simp only [String.data_append, List.append_assoc]
          repeat first
            | exact mid_appr base2 _
            | exact base2
            | refine mid_appl ?_ _
    · intro s hs hmem
      rcases load_calls_cases cache fetch with hc | hc
      · rw [hc] at hmem
        simp at hmem
      · rw [hc] at hmem
        simp at hmem
        exact hs hmem
  · intro rt cache fetch
    have h := ask_for_store_context_props rt cache fetch
    exact ⟨h.1, h.2.1, h.2.2.2.1, h.2.2.2.2.1, h.2.2.2.2.2.1, h.2.2.2.2.2.2⟩

/-- C4 witness: the daily handler with no store id and no default returns
exactly the clarification response. -/
theorem c4_witness :
    get_daily_report (.ok ()) "" [] (.ok []) none (.ok none) (.ok [])
      = .ok (ask_for_store_context "laporan harian" [] (.ok [])) :=
  c4_missing_store_clarification.1 "" [] (.ok []) none (.ok none) (.ok []) rfl

/-! ## C5: handler failure semantics -/

/-- C5 counterexample: not every data-store exception becomes a
`success:false` dictionary.  With an empty effective store id, an empty
cache, and a store-list fetch that raises ("connection refused"), the daily
handler swallows the exception inside the cache loader and returns the
clarification response with `success = true` and no `error` field — the
trace confirms the failing `list-stores` query was issued. -/
theorem c5_counterexample :
    (get_daily_report (.ok ()) "" [] (.error "connection refused") none
        (.ok none) (.ok [])).map (fun r => (r.1.success, r.1.error, r.2))
      = .ok (true, none, ["list-stores"]) := by
  rfl

/-- C5 (amended): with the analytics tools already loaded (as they are when
the router dispatches), no embedded handler ever lets an exception escape
(each is total, returning `.ok`), and every exception raised by a query in a
handler's `try` block is converted at the handler boundary into
`{success: false, response: <localized failure message>, error: str(e)}`,
with the trace showing exactly the queries attempted; only the store-cache
fetch of the clarification path is caught deeper, yielding a success
response instead (per the counterexample). -/
theorem c5_handler_error_conversion :
    (∀ (d : String) cache fetch sid rres sres,
        (get_daily_report (.ok ()) d cache fetch sid rres sres).isOk = true)
    ∧ (∀ (d : String) cache fetch sid sres (e : String), effectiveSid sid d ≠ "" →
        get_daily_report (.ok ()) d cache fetch sid (.error e) sres
          = .ok (errDict "Gagal mengambil laporan harian." e, ["get-daily-revenue"]))
    ∧ (∀ (d : String) cache fetch sid rev (e : String), effectiveSid sid d ≠ "" →
        get_daily_report (.ok ()) d cache fetch sid (.ok rev) (.error e)
          = .ok (errDict "Gagal mengambil laporan harian." e,
              ["get-daily-revenue", "get-order-status-summary"]))
    ∧ (∀ (d : String) cache fetch sid rres,
        (get_weekly_report (.ok ()) d cache fetch sid rres).isOk = true)
    ∧ (∀ (d : String) cache fetch sid (e : String), effectiveSid sid d ≠ "" →
        get_weekly_report (.ok ()) d cache fetch sid (.error e)
          = .ok (errDict "Gagal mengambil laporan mingguan." e, ["get-weekly-revenue"]))
    ∧ (∀ (d : String) cache fetch sid rres pres,
        (get_monthly_report (.ok ()) d cache fetch sid rres pres).isOk = true)
    ∧ (∀ (d : String) cache fetch sid pres (e : String), effectiveSid sid d ≠ "" →
        get_monthly_report (.ok ()) d cache fetch sid (.error e) pres
          = .ok (errDict "Gagal mengambil laporan bulanan." e, ["get-monthly-revenue"]))
    ∧ (∀ (d : String) cache fetch sid rev (e : String), effectiveSid sid d ≠ "" →
        get_monthly_report (.ok ()) d cache fetch sid (.ok rev) (.error e)
          = .ok (errDict "Gagal mengambil laporan bulanan." e,
              ["get-monthly-revenue", "get-popular-services"]))
    ∧ (∀ (period d : String) cache fetch sid cres,
        (compare_periods (.ok ()) period d cache fetch sid cres).isOk = true)
    ∧ (∀ (period d : String) cache fetch sid (e : String), effectiveSid sid d ≠ "" →
        compare_periods (.ok ()) period d cache fetch sid (.error e)
          = .ok (errDict "Gagal membandingkan periode." e, ["compare-revenue-periods"]))
    ∧ (∀ (d : String) cache fetch sid sres,
        (get_points_summary (.ok ()) d cache fetch sid sres).isOk = true)
    ∧ (∀ (d : String) cache fetch sid (e : String),
        (match sid with | some s => if s ≠ "" then s else d | none => d) ≠ "" →
        get_points_summary (.ok ()) d cache fetch sid (.error e)
          = .ok (errDict "Gagal mengambil ringkasan poin." e, ["get-points-summary-by-store"]))
    ∧ (∀ result, (get_customer_points (.ok ()) result).isOk = true)
    ∧ (∀ e : String, get_customer_points (.ok ()) (.error e)
        = .ok (errDict "Gagal mengambil data poin." e, ["get-customer-points"])) := by
  refine ⟨?_, ?_, ?_, ?_, ?_, ?_, ?_, ?_, ?_, ?_, ?_, ?_, ?_, ?_⟩
  · intro d cache fetch sid rres sres
    by_cases h : effectiveSid sid d = ""
    · simp [get_daily_report, h, Except.isOk, Except.toBool]
    · cases rres with
      | error e => simp [get_daily_report, h, Except.isOk, Except.toBool]
      | ok ro =>
        cases sres with
        | error e => simp [get_daily_report, h, Except.isOk, Except.toBool]
        | ok st =>
          cases ro with
          | none => simp [get_daily_report, h, Except.isOk, Except.toBool]
          | some rev => simp [get_daily_report, h, Except.isOk, Except.toBool]
  · intro d cache fetch sid sres e h
    simp [get_daily_report, h]
  · intro d cache fetch sid rev e h
    simp [get_daily_report, h]
  · intro d cache fetch sid rres
    by_cases h : effectiveSid sid d = ""
    · simp [get_weekly_report, h, Except.isOk, Except.toBool]
    · cases rres with
      | error e => simp [get_weekly_report, h, Except.isOk, Except.toBool]
      | ok ro =>
        cases ro with
        | none => simp [get_weekly_report, h, Except.isOk, Except.toBool]
        | some rev => simp [get_weekly_report, h, Except.isOk, Except.toBool]
  · intro d cache fetch sid e h
    simp [get_weekly_report, h]
  · intro d cache fetch sid rres pres
    by_cases h : effectiveSid sid d = ""
    · simp [get_monthly_report, h, Except.isOk, Except.toBool]
    · cases rres with
      | error e => simp [get_monthly_report, h, Except.isOk, Except.toBool]
      | ok ro =>
        cases pres with
        | error e => simp [get_monthly_report, h, Except.isOk, Except.toBool]
        | ok ps =>
          cases ro with
          | none => simp [get_monthly_report, h, Except.isOk, Except.toBool]
          | some rev => simp [get_monthly_report, h, Except.isOk, Except.toBool]
  · intro d cache fetch sid pres e h
    simp [get_monthly_report, h]
  · intro d cache fetch sid rev e h
    simp [get_monthly_report, h]
  · intro period d cache fetch sid cres
    by_cases h : effectiveSid sid d = ""
    · simp [compare_periods, h, Except.isOk, Except.toBool]
    · cases cres with
      | error e => simp [compare_periods, h, Except.isOk, Except.toBool]
      | ok co =>
        cases co with
        | none => simp [compare_periods, h, Except.isOk, Except.toBool]
        | some c => simp [compare_periods, h, Except.isOk, Except.toBool]
  · intro period d cache fetch sid e h
    simp [compare_periods, h]
  · intro d cache fetch sid sres
    by_cases h : (match sid with | some s => if s ≠ "" then s else d | none => d) = ""
    · simp only [get_points_summary, h, eq_self_iff_true, if_true, Except.isOk, Except.toBool]
    · simp only [ne_eq, ite_not] at h
      cases sres with
      | error e => simp [get_points_summary, h, Except.isOk, Except.toBool]
      | ok so =>
        cases so with
        | none => simp [get_points_summary, h, Except.isOk, Except.toBool]
        | some su => simp [get_points_summary, h, Except.isOk, Except.toBool]
  · intro d cache fetch sid e h
    simp only [ne_eq, ite_not] at h
    simp [get_points_summary, h]
  · intro result
    cases result with
    | error e => simp [get_customer_points, Except.isOk, Except.toBool]
    | ok co =>
      cases co with
      | none => simp [get_customer_points, Except.isOk, Except.toBool]
      | some cu => simp [get_customer_points, Except.isOk, Except.toBool]
  · intro e
    simp [get_customer_points]

/-- C5 witness: a raised customer-points query becomes the localized error
dictionary, and a raised daily-revenue query likewise (store id present). -/
theorem c5_witness :
    get_customer_points (.ok ()) (.error "boom")
      = .ok (errDict "Gagal mengambil data poin." "boom", ["get-customer-points"])
    ∧ get_daily_report (.ok ()) "store-1" [] (.ok []) none (.error "down") (.ok [])
      = .ok (errDict "Gagal mengambil laporan harian." "down", ["get-daily-revenue"]) := by
  obtain ⟨-, hdaily, -, -, -, -, -, -, -, -, -, -, -, hcust⟩ := c5_handler_error_conversion
  exact ⟨hcust "boom", hdaily "store-1" [] (.ok []) none (.ok []) "down" (by decide)⟩

/-! ## C8: phone extraction -/

theorem isDigit19_isDigit {c : Char} (h : isDigit19 c = true) : c.isDigit = true := by
  simp only [isDigit19, Bool.and_eq_true, decide_eq_true_eq] at h
  simp only [Char.isDigit, Bool.and_eq_true, decide_eq_true_eq]
  exact ⟨le_trans (show ('0' : Char) ≤ '1' by decide) h.1, h.2⟩

theorem matchP1Core_shape {cs m : List Char} (h : matchP1Core cs = some m) :
    ∃ c ds, m = '8' :: c :: ds ∧ isDigit19 c = true ∧ ds.all Char.isDigit = true
      ∧ 7 ≤ ds.length ∧ ds.length ≤ 10 := by
  unfold matchP1Core at h
  split at h
  case _ c rest =>
    split at h
    case isTrue hd =>
      dsimp only at h
      split at h
      case isTrue hlen =>
        refine ⟨c, _, by injection h with h2; exact h2.symm, hd, ?_, hlen,
          List.length_take_le 10 _⟩
        refine List.all_eq_true.mpr (fun x hx => ?_)
        exact List.mem_takeWhile_imp (List.mem_of_mem_take hx)
      case isFalse => exact absurd h (by simp)
    case isFalse => exact absurd h (by simp)
  case _ => exact absurd h (by simp)

theorem matchP1At_shape {cs m : List Char} (h : matchP1At cs = some m) :
    claimPhoneShape m := by
  unfold matchP1At at h
  split at h
  case _ rest =>
    obtain ⟨m', hm', rfl⟩ := Option.map_eq_some'.mp h
    obtain ⟨c, ds, rfl, hd, hall, h7, h10⟩ := matchP1Core_shape hm'
    refine ⟨['+', '6', '2', '8'], c :: ds, by simp, by simp, ?_, by simp; omega, by simp; omega⟩
    simp [isDigit19_isDigit hd, hall]
  case _ rest =>
    obtain ⟨m', hm', rfl⟩ := Option.map_eq_some'.mp h
    obtain ⟨c, ds, rfl, hd, hall, h7, h10⟩ := matchP1Core_shape hm'
    refine ⟨['6', '2', '8'], c :: ds, by simp, by simp, ?_, by simp; omega, by simp; omega⟩
    simp [isDigit19_isDigit hd, hall]
  case _ rest =>
    obtain ⟨m', hm', rfl⟩ := Option.map_eq_some'.mp h
    obtain ⟨c, ds, rfl, hd, hall, h7, h10⟩ := matchP1Core_shape hm'
    refine ⟨['0', '8'], c :: ds, by simp, by simp, ?_, by simp; omega, by simp; omega⟩
    simp [isDigit19_isDigit hd, hall]
  case _ => exact absurd h (by simp)

theorem matchP2At_shape {p : Option Char} {cs m : List Char}
    (h : matchP2At p cs = some m) : claimPhoneShape m := by
  unfold matchP2At at h
  split at h
  case isTrue =>
    split at h
    case _ rest =>
      dsimp only at h
      split at h
      case isTrue hcond =>
        simp only [Bool.and_eq_true, decide_eq_true_eq] at hcond
        injection h with h2
        refine ⟨['0', '8'], rest.takeWhile Char.isDigit, h2.symm, by simp, ?_,
          hcond.1.1, by omega⟩
        exact List.all_eq_true.mpr (fun x hx => List.mem_takeWhile_imp hx)
      case isFalse => exact absurd h (by simp)
    case _ => exact absurd h (by simp)
  case isFalse => exact absurd h (by simp)

theorem matchP1At_nil : matchP1At [] = none := rfl

theorem matchP2At_nil (p : Option Char) : matchP2At p [] = none := by
  unfold matchP2At
  split <;> rfl

theorem searchP1_none_iff : ∀ cs : List Char,
    searchP1 cs = none ↔ ∀ i, matchP1At (cs.drop i) = none := by
  intro cs
  induction cs with
  | nil =>
    constructor
    · intro _ i
      rw [List.drop_nil]
      exact matchP1At_nil
    · intro _
      rfl
  | cons c rest ih =>
    simp only [searchP1]
    cases hm : matchP1At (c :: rest) with
    | some m =>
      simp only [hm]
      constructor
      · intro habs
        exact absurd habs (by simp)
      · intro H
        have := H 0
        rw [List.drop_zero] at this
        rw [this] at hm
        exact absurd hm (by simp)
    | none =>
      simp only [hm]
      rw [ih]
      constructor
      · intro H i
        match i with
        | 0 => exact hm
        | j + 1 => exact H j
      · intro H i
        exact H (i + 1)

theorem searchP1_some : ∀ (cs m : List Char), searchP1 cs = some m →
    ∃ i, matchP1At (cs.drop i) = some m ∧ ∀ j < i, matchP1At (cs.drop j) = none := by
  intro cs
  induction cs with
  | nil =>
    intro m h
    exact absurd h (by simp [searchP1])
  | cons c rest ih =>
    intro m h
    simp only [searchP1] at h
    cases hm : matchP1At (c :: rest) with
    | some m' =>
      rw [hm] at h
      injection h with h2
      subst h2
      exact ⟨0, hm, fun j hj => absurd hj (Nat.not_lt_zero j)⟩
    | none =>
      rw [hm] at h
      obtain ⟨i, h1, h2⟩ := ih m h
      refine ⟨i + 1, h1, fun j hj => ?_⟩
      match j with
      | 0 => exact hm
      | k + 1 => exact h2 k (by omega)

theorem searchP2Aux_none_iff : ∀ (cs : List Char) (prev : Option Char),
    searchP2Aux prev cs = none ↔
      ∀ i, matchP2At (match i with | 0 => prev | j + 1 => cs[j]?) (cs.drop i) = none := by
  intro cs
  induction cs with
  | nil =>
    intro prev
    constructor
    · intro _ i
      rw [List.drop_nil]
      exact matchP2At_nil _
    · intro _
      rfl
  | cons c rest ih =>
    intro prev
    simp only [searchP2Aux]
    cases hm : matchP2At prev (c :: rest) with
    | some m =>
      simp only [hm]
      constructor
      · intro habs
        exact absurd habs (by simp)
      · intro H
        have := H 0
        rw [List.drop_zero] at this
        rw [this] at hm
        exact absurd hm (by simp)
    | none =>
      simp only [hm]
      rw [ih (some c)]
      constructor
      · intro H i
        match i with
        | 0 => simpa using hm
        | 1 => simpa using H 0
        | j + 2 => simpa using H (j + 1)
      · intro H i
        match i with
        | 0 => simpa using H 1
        | j + 1 => simpa using H (j + 2)

theorem searchP2Aux_some : ∀ (cs : List Char) (prev : Option Char) (m : List Char),
    searchP2Aux prev cs = some m →
    ∃ i, matchP2At (match i with | 0 => prev | j + 1 => cs[j]?) (cs.drop i) = some m
      ∧ ∀ j < i, matchP2At (match j with | 0 => prev | k + 1 => cs[k]?) (cs.drop j) = none := by
  intro cs
  induction cs with
  | nil =>
    intro prev m h
    exact absurd h (by simp [searchP2Aux])
  | cons c rest ih =>
    intro prev m h
    simp only [searchP2Aux] at h
    cases hm : matchP2At prev (c :: rest) with
    | some m' =>
      rw [hm] at h
      injection h with h2
      subst h2
      exact ⟨0, hm, fun j hj => absurd hj (Nat.not_lt_zero j)⟩
    | none =>
      rw [hm] at h
      obtain ⟨i, h1, h2⟩ := ih (some c) m h
      refine ⟨i + 1, ?_, fun j hj => ?_⟩
      · match i, h1 with
        | 0, h1 => simpa using h1
        | k + 1, h1 => simpa using h1
      · match j with
        | 0 => simpa using hm
        | 1 => simpa using h2 0 (by omega)
        | k + 2 => simpa using h2 (k + 1) (by omega)

theorem prevChar_eq (l : List Char) (i : Nat) :
    prevChar l i = match i with | 0 => none | j + 1 => l[j]? := by
  cases i <;> rfl

/-- C8 counterexample: the extractor does not return the textually first
qualifying substring.  "0800000000" starts with "08" followed by 8 digits
and occurs first in "0800000000 0812345678", yet `extract_phone` returns the
later "0812345678" — the first pattern (which requires a `[1-9]` after "08")
is searched over the whole text before the second pattern is ever tried. -/
theorem c8_counterexample :
    extract_phone "0800000000 0812345678" = some "0812345678"
    ∧ claimPhoneShape ("0800000000" : String).toList
    ∧ ("0800000000 0812345678" : String).toList
        = ("0800000000" : String).toList ++ (" 0812345678" : String).toList
    ∧ ("0812345678" : String) ≠ "0800000000" := by
  refine ⟨by rfl, ⟨['0', '8'], List.replicate 8 '0', by decide, by decide, by decide,
    by decide, by decide⟩, by decide, by decide⟩

/-- C8 (amended): `extract_phone` returns `None` exactly when no position of
the text matches either source pattern (`(?:\+62|62|0)8[1-9][0-9]{7,10}` or
`\b08[0-9]{8,11}\b`); every returned string starts with "08" (or a
"+62"/"62" prefixed equivalent) followed by 8–12 digits; and the returned
string is the leftmost match of the first pattern when that pattern matches
anywhere, else the leftmost match of the second — not necessarily the
textually first qualifying substring (per the counterexample). -/
theorem c8_extract_phone_amended :
    (∀ msg : String, extract_phone msg = none ↔
      ((∀ i, matchP1At (msg.toList.drop i) = none)
        ∧ (∀ i, matchP2At (prevChar msg.toList i) (msg.toList.drop i) = none)))
    ∧ (∀ (msg s : String), extract_phone msg = some s → claimPhoneShape s.toList)
    ∧ (∀ (msg s : String), extract_phone msg = some s →
        (∃ i, matchP1At (msg.toList.drop i) = some s.toList
          ∧ ∀ j < i, matchP1At (msg.toList.drop j) = none)
        ∨ ((∀ i, matchP1At (msg.toList.drop i) = none)
          ∧ ∃ i, matchP2At (prevChar msg.toList i) (msg.toList.drop i) = some s.toList
          ∧ ∀ j < i, matchP2At (prevChar msg.toList j) (msg.toList.drop j) = none)) := by
  refine ⟨?_, ?_, ?_⟩
  · intro msg
    simp only [prevChar_eq]
    unfold extract_phone
    cases h1 : searchP1 msg.toList with
    | some m =>
      simp only [h1]
      constructor
      · intro habs
        exact absurd habs (by simp)
      · intro H
        rw [(searchP1_none_iff msg.toList).mpr H.1] at h1
        exact absurd h1 (by simp)
    | none =>
      simp only [h1]
      cases h2 : searchP2 msg.toList with
      | some m =>
        simp only [h2]
        constructor
        · intro habs
          exact absurd habs (by simp)
        · intro H
          have hnone := (searchP2Aux_none_iff msg.toList none).mpr H.2
          rw [show searchP2 msg.toList = searchP2Aux none msg.toList from rfl] at h2
          rw [hnone] at h2
          exact absurd h2 (by simp)
      | none =>
        simp only [h2]
        refine ⟨fun _ => ⟨(searchP1_none_iff msg.toList).mp h1,
          (searchP2Aux_none_iff msg.toList none).mp
            (by rw [show searchP2Aux none msg.toList = searchP2 msg.toList from rfl]; exact h2)⟩,
          fun _ => trivial⟩
  · intro msg s h
    unfold extract_phone at h
    cases h1 : searchP1 msg.toList with
    | some m =>
      rw [h1] at h
      injection h with h2
      obtain ⟨i, hi, -⟩ := searchP1_some msg.toList m h1
      have : s.toList = m := by rw [← h2]; exact str_mk_toList m
      rw [this]
      exact matchP1At_shape hi
    | none =>
      rw [h1] at h
      cases h2 : searchP2 msg.toList with
      | some m =>
        rw [h2] at h
        injection h with h3
        obtain ⟨i, hi, -⟩ := searchP2Aux_some msg.toList none m h2
        have : s.toList = m := by rw [← h3]; exact str_mk_toList m
        rw [this]
        exact matchP2At_shape hi
      | none =>
        rw [h2] at h
        exact absurd h (by simp)
  · intro msg s h
    unfold extract_phone at h
    cases h1 : searchP1 msg.toList with
    | some m =>
      rw [h1] at h
      injection h with h2
      have hs : s.toList = m := by rw [← h2]; exact str_mk_toList m
      rw [hs]
      exact Or.inl (searchP1_some msg.toList m h1)
    | none =>
      rw [h1] at h
      cases h2 : searchP2 msg.toList with
      | some m =>
        rw [h2] at h
        injection h with h3
        have hs : s.toList = m := by rw [← h3]; exact str_mk_toList m
        rw [hs]
        refine Or.inr ⟨(searchP1_none_iff msg.toList).mp h1, ?_⟩
        simp only [prevChar_eq]
        exact searchP2Aux_some msg.toList none m h2
      | none =>
        rw [h2] at h
        exact absurd h (by simp)

/-- C8 witness: the amended theorem's shape conclusion at a concrete
message. -/
theorem c8_witness : claimPhoneShape ("0812345678" : String).toList :=
  c8_extract_phone_amended.2.1 "cek poin 0812345678" "0812345678" (by rfl)

end SmartLaundry
